import Mathlib

/-! Heartbeat controller of the sensor beacon (`src/app_heartbeat.c`).

A shallow embedding of the module's static variables and entry points.

* The static variables of the C file are the fields of `State`, under the
  names they have in the source.
* Every call into a driver (timer, advertisement, GATT, watchdog, sensor,
  encoder, error check) is recorded as an `Event`; an entry point returns the
  new `State`, the events it issued in program order, and its return value.
* Whatever the drivers answer during one call (clock readings, send statuses,
  timer statuses) is an explicit input record (`HeartbeatEnv`,
  `ShouldSleepEnv`, ...).  Each textual occurrence of `ri_rtc_millis()` has a
  reading of its own, so the clock may advance inside a call.
* `int64_t` variables are `Int`, unsigned ones are `Nat`; the conversions and
  wrap-arounds the C expressions perform are written out (`u64_of_i64`,
  `i64_of_u64`, `add_i64`, `% 2^64`).
* `RD_ERROR_CHECK` hands a status with a bit outside its mask to the fatal-error
  handler, which may reset the device instead of returning; whether it returns
  is an input (`fatal_handler_returns`), and a call that does not return has
  `ret = none`.
-/

namespace AppHeartbeat

/-! ## Machine integers -/

/-- Conversion `int64_t -> uint64_t`, as the usual arithmetic conversions do
when an `int64_t` meets a `uint64_t` in a comparison: reduction modulo 2^64. -/
def u64_of_i64 (i : Int) : Nat := (i % 18446744073709551616).toNat

/-- Conversion `uint64_t -> int64_t` of an assignment such as
`last_hb_ms = ri_rtc_millis ()` (two's complement). -/
def i64_of_u64 (n : Nat) : Int :=
  if n % 18446744073709551616 < 9223372036854775808 then
    ((n % 18446744073709551616 : Nat) : Int)
  else
    ((n % 18446744073709551616 : Nat) : Int) - 18446744073709551616

/-- Addition of two `int64_t` operands, wrapping in two's complement (C leaves
the overflow undefined; the theorems that depend on such a sum take it in
range). -/
def add_i64 (a b : Int) : Int := i64_of_u64 (u64_of_i64 (a + b))

/-- Complement `~x` of a 32-bit `rd_status_t`. -/
def not_u32 (x : Nat) : Nat := x ^^^ 4294967295

/-! ## Constants of headers outside `src/` -/

/-- Modelled from the spec: `RD_SUCCESS` is a constant of `ruuvi_driver_error.h`,
which is not in `src/`.  Statuses are error bits that are combined bitwise
(spec 4.1, 4.4 step 8), so success is the status with no bit set. -/
def RD_SUCCESS : Nat := 0

/-- Flags of enabled formats, type `app_dataformats_t`. -/
structure Dataformats where
  DF_3 : Bool
  DF_5 : Bool
  DF_8 : Bool
  DF_FA : Bool
  deriving DecidableEq, Repr

/-- `APP_DF_3_ENABLED` (line 29). -/
def APP_DF_3_ENABLED : Bool := false
/-- `APP_DF_5_ENABLED` (line 30). -/
def APP_DF_5_ENABLED : Bool := true
/-- `APP_DF_8_ENABLED` (line 31). -/
def APP_DF_8_ENABLED : Bool := false
/-- `APP_DF_FA_ENABLED` (line 32). -/
def APP_DF_FA_ENABLED : Bool := false

/-- The static `m_dataformats_enabled` (lines 51-57). -/
def m_dataformats_enabled : Dataformats :=
  { DF_3 := APP_DF_3_ENABLED, DF_5 := APP_DF_5_ENABLED,
    DF_8 := APP_DF_8_ENABLED, DF_FA := APP_DF_FA_ENABLED }

/-- Constants and helpers the module takes from headers that are not part of
`src/`; they are parameters of the embedding. -/
structure Config where
  /-- `APP_HEARTBEAT_INTERVAL_MS` of `app_config.h`. -/
  APP_HEARTBEAT_INTERVAL_MS : Nat
  /-- `APP_HEARTBEAT_OVERDUE_INTERVAL_MS` of `app_config.h`. -/
  APP_HEARTBEAT_OVERDUE_INTERVAL_MS : Nat
  /-- `APP_COMM_ADV_DISABLE` of `app_comms.h`. -/
  APP_COMM_ADV_DISABLE : Nat
  /-- `APP_COMM_ADV_REPEAT_FOREVER` of `app_comms.h`. -/
  APP_COMM_ADV_REPEAT_FOREVER : Nat
  /-- `RI_COMM_MSG_REPEAT_FOREVER` of `ruuvi_interface_communication.h`. -/
  RI_COMM_MSG_REPEAT_FOREVER : Nat
  /-- `RI_COMM_MESSAGE_MAX_LENGTH` of `ruuvi_interface_communication.h`. -/
  RI_COMM_MESSAGE_MAX_LENGTH : Nat
  /-- `RD_ERROR_FATAL` of `ruuvi_driver_error.h`. -/
  RD_ERROR_FATAL : Nat
  /-- `RD_ERROR_INVALID_STATE` of `ruuvi_driver_error.h`. -/
  RD_ERROR_INVALID_STATE : Nat
  /-- `app_dataformat_next` of `app_dataformats.c`. -/
  app_dataformat_next : Dataformats → Nat → Nat

/-! ## Data model -/

/-- The fields of `ri_comm_message_t` the module touches. -/
structure Msg where
  data : List Nat
  data_length : Nat
  repeat_count : Nat
  deriving DecidableEq, Repr

/-- Calls into the drivers, with the arguments that matter. -/
inductive Event where
  /-- `app_sensor_available_data ()` followed by `app_sensor_get (&data)`. -/
  | sensor_get
  /-- `app_dataformat_encode (msg.data, &buffer_len, &data, format)`. -/
  | dataformat_encode (format : Nat)
  /-- `rt_adv_send_data (p_msg)`. -/
  | adv_send (msg : Msg)
  /-- `rt_adv_stop ()`. -/
  | adv_stop
  /-- `rt_gatt_send_asynchronous (&msg)`. -/
  | gatt_send (msg : Msg)
  /-- `ri_watchdog_feed ()`. -/
  | watchdog_feed
  /-- `RD_ERROR_CHECK (error, mask)`. -/
  | error_check (error mask : Nat)
  /-- The fatal-error handler, invoked from inside the error check. -/
  | fatal_handler (error : Nat)
  /-- `ri_timer_create (&heart_timer, RI_TIMER_MODE_REPEATED, &schedule_heartbeat_isr)`. -/
  | timer_create
  /-- `ri_timer_start (heart_timer, interval_ms, NULL)`. -/
  | timer_start (timer : Option Nat) (interval_ms : Nat)
  /-- `ri_timer_stop (heart_timer)`. -/
  | timer_stop (timer : Option Nat)
  /-- `ri_scheduler_event_put (NULL, 0U, &heartbeat)`. -/
  | scheduler_event_put
  deriving DecidableEq, Repr

/-- The static variables of `app_heartbeat.c` (lines 34-49). -/
structure State where
  /-- `static uint32_t heartbeat_gatt_interval_dynamic_ms` -/
  heartbeat_gatt_interval_dynamic_ms : Nat
  /-- `static uint32_t heartbeat_interval_ms` -/
  heartbeat_interval_ms : Nat
  /-- `static int64_t heartbeat_gatt_live_until` -/
  heartbeat_gatt_live_until : Int
  /-- `static int64_t last_accelerometer_active_time_ms` -/
  last_accelerometer_active_time_ms : Int
  /-- `static int64_t last_hb_ms` -/
  last_hb_ms : Int
  /-- `static bool timer_running` -/
  timer_running : Bool
  /-- `static int64_t last_led_flash_ms` -/
  last_led_flash_ms : Int
  /-- `static ri_timer_id_t heart_timer`; `none` is `NULL`. -/
  heart_timer : Option Nat
  /-- `static uint64_t last_heartbeat_timestamp_ms` -/
  last_heartbeat_timestamp_ms : Nat
  /-- `static app_dataformat_t m_dataformat_state` -/
  m_dataformat_state : Nat
  deriving DecidableEq, Repr

/-- The outcome of one call: the static variables afterwards, the driver calls
issued in program order, and the value returned.  `ret = none` means that the
call did not return because the fatal-error handler kept control. -/
structure Result (α : Type) where
  state : State
  events : List Event
  ret : Option α

/-! ## Answers of the drivers during one call -/

/-- What the outside world answers during one run of `heartbeat`. -/
structure HeartbeatEnv where
  /-- `ri_rtc_millis ()` in the condition of line 120. -/
  rtc_rate_limit : Nat
  /-- `ri_rtc_millis ()` of line 121. -/
  rtc_led_flash : Nat
  /-- `ri_rtc_millis ()` of line 159. -/
  rtc_timestamp : Nat
  /-- `ri_rtc_millis ()` of line 162. -/
  rtc_last_hb : Nat
  /-- Bytes the encoder wrote to `msg.data`. -/
  encoded_data : List Nat
  /-- Value of `buffer_len` after `app_dataformat_encode`. -/
  encoded_len : Nat
  /-- `app_comms_bleadv_send_count_get ()`. -/
  bleadv_send_count : Nat
  /-- Status of `rt_adv_send_data`. -/
  adv_send_status : Nat
  /-- Status of `rt_gatt_send_asynchronous`. -/
  gatt_send_status : Nat
  /-- Whether the fatal-error handler hands control back to its caller. -/
  fatal_handler_returns : Bool

/-- What the outside world answers during one `app_heartbeat_should_sleep`. -/
structure ShouldSleepEnv where
  /-- `ri_rtc_millis ()` of line 238. -/
  rtc_live : Nat
  /-- `ri_rtc_millis ()` of line 246. -/
  rtc_due : Nat
  /-- Answers during the `heartbeat` call of line 249. -/
  hb : HeartbeatEnv

/-- What the outside world answers during `app_heartbeat_init`. -/
structure InitEnv where
  /-- `ri_rtc_millis ()` of line 213. -/
  rtc_last_hb : Nat
  /-- `ri_rtc_millis ()` of line 215. -/
  rtc_led_flash : Nat
  /-- `ri_rtc_millis ()` of line 216. -/
  rtc_live_until : Nat
  /-- `ri_timer_is_init ()`. -/
  timer_is_init : Bool
  /-- `ri_scheduler_is_init ()`. -/
  scheduler_is_init : Bool
  /-- Status of `ri_timer_create`. -/
  timer_create_status : Nat
  /-- Value of `heart_timer` after `ri_timer_create (&heart_timer, ...)`. -/
  timer_create_handle : Option Nat
  /-- Status of `ri_timer_start`. -/
  timer_start_status : Nat

/-- What the outside world answers during `app_heartbeat_start`. -/
structure StartEnv where
  /-- Answers during the `heartbeat` call of line 271. -/
  hb : HeartbeatEnv
  /-- Status of `ri_timer_start`. -/
  timer_start_status : Nat

/-! ## The module -/

/-- Modelled from the spec: `RD_ERROR_CHECK (error, mask)` is a macro of
`ruuvi_driver_error.h`, which is not in `src/`.  The spec (4.4 step 8, section 7)
says that a status is non-fatal unless it carries a bit outside the non-fatal
mask, in which case the fatal-error handler is invoked, and that the handler
can halt or reset the device.  The result is `false` when the handler was
invoked and kept control. -/
def RD_ERROR_CHECK (handler_returns : Bool) (error mask : Nat) : List Event × Bool :=
  if error &&& not_u32 mask ≠ 0 then
    ([Event.error_check error mask, Event.fatal_handler error], handler_returns)
  else
    ([Event.error_check error mask], true)

/-- Lines 59-83: `send_adv`.  Returns the message as the callee sees it, the
driver calls, and `err_code`. -/
def send_adv (cfg : Config) (env : HeartbeatEnv) (msg : Msg) : Msg × List Event × Nat :=
  let err_code := RD_SUCCESS
  let repeat_count := env.bleadv_send_count
  if cfg.APP_COMM_ADV_DISABLE ≠ repeat_count then
    let msg1 : Msg :=
      if cfg.APP_COMM_ADV_REPEAT_FOREVER = repeat_count then
        { msg with repeat_count := cfg.RI_COMM_MSG_REPEAT_FOREVER }
      else
        { msg with repeat_count := repeat_count }
    (msg1, [Event.adv_send msg1], err_code ||| env.adv_send_status)
  else
    (msg, [Event.adv_stop], err_code)

/-- Lines 156-162 and 182 of `heartbeat`: health bookkeeping, `last_hb_ms`,
and the closing error check. -/
def heartbeat_finish (cfg : Config) (env : HeartbeatEnv) (s : State)
    (events : List Event) (heartbeat_ok : Bool) (err_code : Nat) : Result Unit :=
  let s1 : State :=
    if heartbeat_ok then { s with last_heartbeat_timestamp_ms := env.rtc_timestamp } else s
  let ev1 : List Event := if heartbeat_ok then [Event.watchdog_feed] else []
  let s2 : State := { s1 with last_hb_ms := i64_of_u64 env.rtc_last_hb }
  let chk := RD_ERROR_CHECK env.fatal_handler_returns err_code (not_u32 cfg.RD_ERROR_FATAL)
  { state := s2
    events := events ++ ev1 ++ chk.1
    ret := if chk.2 then some () else none }

/-- Lines 128-154 of `heartbeat`: the connection-oriented send.  `msg` and
`err_code` are the locals as they stand after the broadcast block.  The three
tests of `err_code` against `RD_SUCCESS` (lines 128, 140, 151) are kept; the
local `gatt_active` and the message length restored for the commented-out NFC
send (lines 145-149) are read by nothing and are left out. -/
def heartbeat_gatt (cfg : Config) (env : HeartbeatEnv) (s : State)
    (events : List Event) (msg : Msg) (err_code : Nat) : Result Unit :=
  let heartbeat_ok0 : Bool := false
  let heartbeat_ok1 : Bool := if RD_SUCCESS = err_code then true else heartbeat_ok0
  let msg1 : Msg := { msg with data_length := 18 }
  let msg2 : Msg := { msg1 with repeat_count := 1 }
  let err_code1 := env.gatt_send_status
  let heartbeat_ok2 : Bool := if RD_SUCCESS = err_code1 then true else heartbeat_ok1
  let heartbeat_ok3 : Bool := if RD_SUCCESS = err_code1 then true else heartbeat_ok2
  heartbeat_finish cfg env s (events ++ [Event.gatt_send msg2]) heartbeat_ok3 err_code1

/-- Lines 104-183: `heartbeat`, one execution of the pipeline: sensor read,
format selection and encoding (lines 106-118), then the rate-limited broadcast
block with its error check (lines 120-126), then `heartbeat_gatt`.  When the error
check of line 125 does not return, the execution ends there. -/
def heartbeat (cfg : Config) (env : HeartbeatEnv) (s : State) : Result Unit :=
  let msg0 : Msg := { data := [], data_length := 0, repeat_count := 0 }
  let err_code := RD_SUCCESS
  let format := cfg.app_dataformat_next m_dataformats_enabled s.m_dataformat_state
  let s1 : State := { s with m_dataformat_state := format }
  let buffer_len := env.encoded_len
  let msg1 : Msg := { msg0 with data := env.encoded_data }
  let msg2 : Msg := { msg1 with data_length := buffer_len % 256 }
  let ev0 : List Event := [Event.sensor_get, Event.dataformat_encode format]
  if u64_of_i64 (add_i64 s1.last_led_flash_ms 1950) < env.rtc_rate_limit then
    let s2 : State := { s1 with last_led_flash_ms := i64_of_u64 env.rtc_led_flash }
    let sent := send_adv cfg env msg2
    let err_code1 := sent.2.2
    let chk := RD_ERROR_CHECK env.fatal_handler_returns err_code1 (not_u32 cfg.RD_ERROR_FATAL)
    if chk.2 then
      heartbeat_gatt cfg env s2 (ev0 ++ sent.2.1 ++ chk.1) sent.1 err_code1
    else
      { state := s2, events := ev0 ++ sent.2.1 ++ chk.1, ret := none }
  else
    heartbeat_gatt cfg env s1 ev0 msg2 err_code

/-- Lines 193-196: `schedule_heartbeat_isr`, the timer callback. -/
def schedule_heartbeat_isr (s : State) : Result Unit :=
  { state := s, events := [Event.scheduler_event_put], ret := some () }

/-- Lines 198-205: `app_heartbeat_set_gatt_interval_ms`; `rtc` is the reading of
`ri_rtc_millis ()` in line 203. -/
def app_heartbeat_set_gatt_interval_ms (rtc : Nat) (interval_ms : Nat) (s : State) :
    Result Nat :=
  let s1 : State := { s with timer_running := false }
  let s2 : State := { s1 with heartbeat_gatt_interval_dynamic_ms := interval_ms }
  let s3 : State :=
    { s2 with heartbeat_gatt_live_until := i64_of_u64 ((30000 + rtc) % 18446744073709551616) }
  { state := s3, events := [Event.timer_stop s.heart_timer], ret := some RD_SUCCESS }

/-- Lines 207-235: `app_heartbeat_init`. -/
def app_heartbeat_init (cfg : Config) (env : InitEnv) (s : State) : Result Nat :=
  let err_code := RD_SUCCESS
  let s1 : State :=
    { s with
      heartbeat_interval_ms := cfg.APP_HEARTBEAT_INTERVAL_MS
      heartbeat_gatt_interval_dynamic_ms := cfg.APP_HEARTBEAT_INTERVAL_MS
      timer_running := false
      last_hb_ms := i64_of_u64 env.rtc_last_hb
      last_accelerometer_active_time_ms := -1 * (1000 * 60 * 9)
      last_led_flash_ms := i64_of_u64 env.rtc_led_flash
      heartbeat_gatt_live_until := i64_of_u64 env.rtc_live_until }
  if (!env.timer_is_init) || (!env.scheduler_is_init) then
    { state := s1, events := [], ret := some (err_code ||| cfg.RD_ERROR_INVALID_STATE) }
  else
    let s2 : State := { s1 with heart_timer := env.timer_create_handle }
    let err_code1 := err_code ||| env.timer_create_status
    if RD_SUCCESS = err_code1 then
      let s3 : State := { s2 with timer_running := true }
      { state := s3
        events := [Event.timer_create, Event.timer_start s3.heart_timer s3.heartbeat_interval_ms]
        ret := some (err_code1 ||| env.timer_start_status) }
    else
      { state := s2, events := [Event.timer_create], ret := some err_code1 }

/-- Lines 237-259: `app_heartbeat_should_sleep`. -/
def app_heartbeat_should_sleep (cfg : Config) (env : ShouldSleepEnv) (s : State) :
    Result Bool :=
  if u64_of_i64 s.heartbeat_gatt_live_until < env.rtc_live then
    if !s.timer_running then
      { state := { s with timer_running := true }
        events := [Event.timer_start s.heart_timer s.heartbeat_interval_ms]
        ret := some true }
    else
      { state := s, events := [], ret := some true }
  else if u64_of_i64 (add_i64 s.last_hb_ms (s.heartbeat_gatt_interval_dynamic_ms : Int))
      < env.rtc_due then
    let r := heartbeat cfg env.hb s
    { state := r.state, events := r.events, ret := r.ret.map (fun _ => false) }
  else
    { state := s, events := [], ret := some false }

/-- Lines 261-276: `app_heartbeat_start`. -/
def app_heartbeat_start (cfg : Config) (env : StartEnv) (s : State) : Result Nat :=
  let err_code := RD_SUCCESS
  if s.heart_timer = none then
    { state := s, events := [], ret := some (err_code ||| cfg.RD_ERROR_INVALID_STATE) }
  else
    let r := heartbeat cfg env.hb s
    match r.ret with
    | none => { state := r.state, events := r.events, ret := none }
    | some _ =>
      { state := r.state
        events := r.events ++ [Event.timer_start r.state.heart_timer r.state.heartbeat_interval_ms]
        ret := some (err_code ||| env.timer_start_status) }

/-- Lines 278-292: `app_heartbeat_stop`; `timer_stop_status` is the status of
`ri_timer_stop`. -/
def app_heartbeat_stop (cfg : Config) (timer_stop_status : Nat) (s : State) : Result Nat :=
  let err_code := RD_SUCCESS
  if s.heart_timer = none then
    { state := s, events := [], ret := some (err_code ||| cfg.RD_ERROR_INVALID_STATE) }
  else
    { state := s, events := [Event.timer_stop s.heart_timer],
      ret := some (err_code ||| timer_stop_status) }

/-- Lines 294-298: `app_heartbeat_overdue`; `rtc` is the reading of
`ri_rtc_millis ()`. -/
def app_heartbeat_overdue (cfg : Config) (rtc : Nat) (s : State) : Bool :=
  decide (rtc > (s.last_heartbeat_timestamp_ms + cfg.APP_HEARTBEAT_OVERDUE_INTERVAL_MS)
    % 18446744073709551616)

/-! ## Observations on results and sequences of calls -/

/-- True for the record of a fatal-error handler invocation. -/
def Event.is_fatal_handler : Event → Bool
  | Event.fatal_handler _ => true
  | _ => false

/-- True for the record of a sensor read. -/
def Event.is_sensor_get : Event → Bool
  | Event.sensor_get => true
  | _ => false

/-- The call did not return because the fatal-error handler was invoked in it
and kept control. -/
def Result.stopped_by_fatal_handler {α : Type} (r : Result α) : Bool :=
  r.ret.isNone && r.events.any Event.is_fatal_handler

/-- Number of pipeline executions recorded in a list of driver calls: every
execution of `heartbeat` reads the sensors exactly once, first thing. -/
def pipeline_executions (events : List Event) : Nat :=
  events.countP Event.is_sensor_get

/-- True for the record of an `rt_adv_send_data` call. -/
def Event.is_adv_send : Event → Bool
  | Event.adv_send _ => true
  | _ => false

/-- True for the driver calls `send_adv` makes: `rt_adv_send_data` or
`rt_adv_stop`. -/
def Event.is_send_adv_call : Event → Bool
  | Event.adv_send _ => true
  | Event.adv_stop => true
  | _ => false

/-- True for the record of an `ri_watchdog_feed` call. -/
def Event.is_watchdog_feed : Event → Bool
  | Event.watchdog_feed => true
  | _ => false

/-- Number of broadcast sends (`rt_adv_send_data`) in a list of driver calls. -/
def broadcast_sends (events : List Event) : Nat :=
  events.countP Event.is_adv_send

/-- Number of times `send_adv` ran, counted on the one driver call each of its
branches makes. -/
def send_adv_calls (events : List Event) : Nat :=
  events.countP Event.is_send_adv_call

/-- Number of watchdog feeds in a list of driver calls. -/
def watchdog_feeds (events : List Event) : Nat :=
  events.countP Event.is_watchdog_feed

/-- The messages handed to `rt_gatt_send_asynchronous`, in order. -/
def gatt_sends (events : List Event) : List Msg :=
  events.filterMap (fun e =>
    match e with
    | Event.gatt_send msg => some msg
    | _ => none)

/-- Consecutive idle-loop ticks: `app_heartbeat_should_sleep` is called once per
element of the list, each call on the state the previous one left.  Nothing runs
after a call that did not return. -/
def should_sleep_ticks (cfg : Config) : State → List ShouldSleepEnv → List (Result Bool)
  | _, [] => []
  | s, env :: envs =>
    let r := app_heartbeat_should_sleep cfg env s
    r :: (match r.ret with
      | some _ => should_sleep_ticks cfg r.state envs
      | none => [])

/-- Consecutive pipeline executions: `heartbeat` runs once per element of the
list, each run on the state the previous one left, and each result is kept with
the answers it ran on.  Nothing runs after an execution that did not return. -/
def heartbeat_runs (cfg : Config) : State → List HeartbeatEnv → List (HeartbeatEnv × Result Unit)
  | _, [] => []
  | s, env :: envs =>
    let r := heartbeat cfg env s
    (env, r) :: (match r.ret with
      | some _ => heartbeat_runs cfg r.state envs
      | none => [])

/-- The clock readings of one pipeline execution, in program order. -/
def HeartbeatEnv.readings (env : HeartbeatEnv) : List Nat :=
  [env.rtc_rate_limit, env.rtc_led_flash, env.rtc_timestamp, env.rtc_last_hb]

/-- The clock readings of consecutive pipeline executions, in program order. -/
def clock_readings : List HeartbeatEnv → List Nat
  | [] => []
  | env :: envs => env.readings ++ clock_readings envs

/-- The times at which consecutive executions entered the broadcast block: for
every execution in which `send_adv` ran (whether it sent or, advertising being
disabled, stopped the advertisement), the clock reading of line 121, the last one
taken before the call. -/
def broadcast_block_times (runs : List (HeartbeatEnv × Result Unit)) : List Nat :=
  (runs.filter (fun p => decide (0 < send_adv_calls p.2.events))).map
    (fun p => p.1.rtc_led_flash)

/-- The times of the broadcast attempts among consecutive executions: for every
execution that called `rt_adv_send_data`, the clock reading of line 121, the last
one taken before the call. -/
def broadcast_attempt_times (runs : List (HeartbeatEnv × Result Unit)) : List Nat :=
  (runs.filter (fun p => decide (0 < broadcast_sends p.2.events))).map
    (fun p => p.1.rtc_led_flash)

/-! ## Concrete inputs used in the worked examples -/

/-- The configuration of the worked examples: advertising is disabled by a send
count of 0, the fatal bit is bit 31, and the format selection keeps the current
format. -/
def example_cfg : Config :=
  { APP_HEARTBEAT_INTERVAL_MS := 5000
    APP_HEARTBEAT_OVERDUE_INTERVAL_MS := 15000
    APP_COMM_ADV_DISABLE := 0
    APP_COMM_ADV_REPEAT_FOREVER := 255
    RI_COMM_MSG_REPEAT_FOREVER := 255
    RI_COMM_MESSAGE_MAX_LENGTH := 31
    RD_ERROR_FATAL := 2147483648
    RD_ERROR_INVALID_STATE := 32
    app_dataformat_next := fun _ current => current }

/-- The static variables at boot: zero-initialised. -/
def boot_state : State :=
  { heartbeat_gatt_interval_dynamic_ms := 0
    heartbeat_interval_ms := 0
    heartbeat_gatt_live_until := 0
    last_accelerometer_active_time_ms := 0
    last_hb_ms := 0
    timer_running := false
    last_led_flash_ms := 0
    heart_timer := none
    last_heartbeat_timestamp_ms := 0
    m_dataformat_state := 0 }

/-- Answers of the drivers to one pipeline execution in which the clock reads
`now` throughout, the encoder writes 24 bytes and the sends return the given
statuses. -/
def example_hb (now adv_send_status gatt_send_status : Nat) : HeartbeatEnv :=
  { rtc_rate_limit := now
    rtc_led_flash := now
    rtc_timestamp := now
    rtc_last_hb := now
    encoded_data := []
    encoded_len := 24
    bleadv_send_count := 1
    adv_send_status := adv_send_status
    gatt_send_status := gatt_send_status
    fatal_handler_returns := true }

/-- Answers of the drivers to one pipeline execution at clock reading `now` in
which advertising is disabled (`app_comms_bleadv_send_count_get ()` returns
`APP_COMM_ADV_DISABLE`) and the GATT send fails with status 8. -/
def example_hb_adv_disabled (now : Nat) : HeartbeatEnv :=
  { example_hb now 0 8 with bleadv_send_count := example_cfg.APP_COMM_ADV_DISABLE }

/-- One idle-loop tick in which the clock reads `now` throughout; the
advertisement succeeds and the GATT send fails with status 8 when the pipeline
runs. -/
def example_tick (now : Nat) : ShouldSleepEnv :=
  { rtc_live := now, rtc_due := now, hb := example_hb now 0 8 }

/-- A successful initialisation at clock reading `now`. -/
def example_init (now : Nat) : InitEnv :=
  { rtc_last_hb := now
    rtc_led_flash := now
    rtc_live_until := now
    timer_is_init := true
    scheduler_is_init := true
    timer_create_status := 0
    timer_create_handle := some 1
    timer_start_status := 0 }

/-- True for the record of an `ri_timer_start` call. -/
def Event.is_timer_start : Event → Bool
  | Event.timer_start _ _ => true
  | _ => false

/-- Number of `ri_timer_start` calls in a list of driver calls. -/
def timer_starts (events : List Event) : Nat :=
  events.countP Event.is_timer_start

/-- Answers of the drivers to one `app_heartbeat_start` at clock reading `now`:
both sends succeed and `ri_timer_start` returns the given status. -/
def example_start (now timer_start_status : Nat) : StartEnv :=
  { hb := example_hb now 0 0, timer_start_status := timer_start_status }

/-- An initialisation at clock reading `now` while the timer driver is not
initialised. -/
def example_init_no_timer (now : Nat) : InitEnv :=
  { example_init now with timer_is_init := false }

/-- An initialisation at clock reading `now` in which the timer is created but
`ri_timer_start` fails with status 32. -/
def example_init_start_fails (now : Nat) : InitEnv :=
  { example_init now with timer_start_status := 32 }

/-- The test of line 238: the tick finds the live window expired. -/
def window_expired (s : State) (env : ShouldSleepEnv) : Bool :=
  decide (u64_of_i64 s.heartbeat_gatt_live_until < env.rtc_live)

/-- One call into the controller after its initialisation, with the answers of
the drivers: the four entry points, and a pipeline execution run from the
scheduler queue after the timer fired. -/
inductive Op where
  /-- `app_heartbeat_set_gatt_interval_ms (interval_ms)` at clock reading `rtc`. -/
  | set_gatt_interval (rtc interval_ms : Nat)
  /-- `app_heartbeat_should_sleep ()`. -/
  | should_sleep (env : ShouldSleepEnv)
  /-- `app_heartbeat_start ()`. -/
  | start (env : StartEnv)
  /-- `app_heartbeat_stop ()`. -/
  | stop (timer_stop_status : Nat)
  /-- `heartbeat (NULL, 0)`, posted by `schedule_heartbeat_isr`. -/
  | pipeline (env : HeartbeatEnv)

/-- A result without its return value. -/
def Result.forget {α : Type} (r : Result α) : Result Unit :=
  { state := r.state, events := r.events, ret := r.ret.map (fun _ => ()) }

/-- The call an `Op` stands for, run on the static variables. -/
def Op.run (cfg : Config) : Op → State → Result Unit
  | Op.set_gatt_interval rtc interval_ms, s =>
    (app_heartbeat_set_gatt_interval_ms rtc interval_ms s).forget
  | Op.should_sleep env, s => (app_heartbeat_should_sleep cfg env s).forget
  | Op.start env, s => (app_heartbeat_start cfg env s).forget
  | Op.stop timer_stop_status, s => (app_heartbeat_stop cfg timer_stop_status s).forget
  | Op.pipeline env, s => heartbeat cfg env s

/-- The clock readings of one call, in program order. -/
def Op.readings : Op → List Nat
  | Op.set_gatt_interval rtc _ => [rtc]
  | Op.should_sleep env => [env.rtc_live, env.rtc_due] ++ env.hb.readings
  | Op.start env => env.hb.readings
  | Op.stop _ => []
  | Op.pipeline env => env.readings

/-- The clock readings of consecutive calls, in program order. -/
def ops_readings : List Op → List Nat
  | [] => []
  | op :: ops => op.readings ++ ops_readings ops

/-- Whether the periodic timer runs after a list of driver calls, as tracked on
the calls themselves: running after `ri_timer_start`, not running after
`ri_timer_stop`, as before after anything else. -/
def timer_after (running : Bool) : List Event → Bool
  | [] => running
  | Event.timer_start _ _ :: events => timer_after true events
  | Event.timer_stop _ :: events => timer_after false events
  | _ :: events => timer_after running events

/-- The controller and the two things around it that its own variables do not
hold: whether the periodic timer runs, as tracked on the driver calls, and
whether a call failed to return (the fatal-error handler kept control), after
which nothing runs. -/
structure Sys where
  state : State
  timer_on : Bool
  stopped : Bool

/-- One call on the system. -/
def Sys.step (cfg : Config) (sys : Sys) (op : Op) : Sys :=
  if sys.stopped then sys
  else
    { state := (op.run cfg sys.state).state
      timer_on := timer_after sys.timer_on (op.run cfg sys.state).events
      stopped := (op.run cfg sys.state).ret.isNone }

/-- Consecutive calls on the system. -/
def run_ops (cfg : Config) : Sys → List Op → Sys
  | sys, [] => sys
  | sys, op :: ops => run_ops cfg (sys.step cfg op) ops

/-- The system right after `app_heartbeat_init` on the static variables `s`; the
timer does not run before the init. -/
def after_init (cfg : Config) (env : InitEnv) (s : State) : Sys :=
  { state := (app_heartbeat_init cfg env s).state
    timer_on := timer_after false (app_heartbeat_init cfg env s).events
    stopped := false }

/-- Every `app_heartbeat_start` of the run is called while no live window is
open: the deadline is not above the first clock reading of the call. -/
def starts_outside_window (cfg : Config) : Sys → List Op → Bool
  | _, [] => true
  | sys, op :: ops =>
    (match op with
      | Op.start env =>
        decide (sys.state.heartbeat_gatt_live_until ≤ (env.hb.rtc_rate_limit : Int))
      | _ => true)
    && starts_outside_window cfg (sys.step cfg op) ops

/-- The clock readings of `app_heartbeat_init`, in program order. -/
def InitEnv.readings (env : InitEnv) : List Nat :=
  [env.rtc_last_hb, env.rtc_led_flash, env.rtc_live_until]

/-- The run of the counterexample to the exclusion of the two regimes:
`set_gatt_interval (500)` at reading 1010, then `app_heartbeat_start` at 1020. -/
def example_ops_start_in_window : List Op :=
  [Op.set_gatt_interval 1010 500, Op.start (example_start 1020 0)]

/-- A run through every kind of call: a live window opened at 1010
(deadline 31010), a tick and a timer-driven execution inside it, a stop, the tick
at 31011 that re-arms the timer, and a start at 31020, after the window. -/
def example_ops : List Op :=
  [Op.set_gatt_interval 1010 500, Op.should_sleep (example_tick 1600),
    Op.pipeline (example_hb 2200 0 8), Op.stop 0,
    Op.should_sleep (example_tick 31011), Op.start (example_start 31020 0)]

/-! ## Machine-integer facts -/

/-- A non-negative value below 2^64 is unchanged by the conversion to `uint64_t`. -/
theorem u64_of_i64_eq (i : Int) (h0 : 0 ≤ i) (h1 : i < 2 ^ 64) :
    ((u64_of_i64 i : Nat) : Int) = i := by
  unfold u64_of_i64; omega

/-- A value below 2^63 is unchanged by the conversion to `int64_t`. -/
theorem i64_of_u64_eq (n : Nat) (h : n < 2 ^ 63) : i64_of_u64 n = (n : Int) := by
  unfold i64_of_u64; split <;> omega

/-- Storing a `uint64_t` in an `int64_t` and reading it back as `uint64_t` only
reduces it modulo 2^64. -/
theorem u64_of_i64_of_u64 (n : Nat) : u64_of_i64 (i64_of_u64 n) = n % 2 ^ 64 := by
  unfold i64_of_u64 u64_of_i64; split <;> omega

/-- A signed sum that stays in range is read back unchanged by an unsigned
comparison. -/
theorem u64_of_add_i64 (a b : Int) (h0 : 0 ≤ a + b) (h1 : a + b < 2 ^ 64) :
    ((u64_of_i64 (add_i64 a b) : Nat) : Int) = a + b := by
  unfold add_i64 i64_of_u64 u64_of_i64; split <;> omega

/-- Complementing twice gives the status back. -/
theorem not_u32_not_u32 (x : Nat) : not_u32 (not_u32 x) = x := by
  unfold not_u32; rw [Nat.xor_assoc, Nat.xor_self, Nat.xor_zero]

/-! ## Facts on one pipeline execution -/

/-- The error check with the mask of the source lets a status through unless it
carries the fatal bit and the handler keeps control. -/
theorem error_check_passes (cfg : Config) (returns : Bool) (error : Nat) :
    (RD_ERROR_CHECK returns error (not_u32 cfg.RD_ERROR_FATAL)).2
      = (if error &&& cfg.RD_ERROR_FATAL ≠ 0 then returns else true) := by
  unfold RD_ERROR_CHECK
  rw [not_u32_not_u32]
  split <;> rfl

/-- The driver calls of one error check. -/
theorem error_check_events (returns : Bool) (error mask : Nat) :
    (RD_ERROR_CHECK returns error mask).1
      = (if error &&& not_u32 mask ≠ 0 then
          [Event.error_check error mask, Event.fatal_handler error]
         else [Event.error_check error mask]) := by
  unfold RD_ERROR_CHECK
  split <;> rfl

/-- The status `send_adv` returns. -/
theorem send_adv_status (cfg : Config) (env : HeartbeatEnv) (msg : Msg) :
    (send_adv cfg env msg).2.2
      = (if cfg.APP_COMM_ADV_DISABLE ≠ env.bleadv_send_count then env.adv_send_status
         else RD_SUCCESS) := by
  by_cases h : cfg.APP_COMM_ADV_DISABLE = env.bleadv_send_count <;>
    simp [send_adv, h, RD_SUCCESS]

/-- The driver calls of `send_adv`: one send, or one stop when advertising is
disabled. -/
theorem send_adv_events (cfg : Config) (env : HeartbeatEnv) (msg : Msg) :
    (send_adv cfg env msg).2.1
      = (if cfg.APP_COMM_ADV_DISABLE ≠ env.bleadv_send_count then
          [Event.adv_send (send_adv cfg env msg).1]
         else [Event.adv_stop]) := by
  by_cases h : cfg.APP_COMM_ADV_DISABLE = env.bleadv_send_count <;>
    simp [send_adv, h]

/-- The payload bytes are untouched by `send_adv`. -/
theorem send_adv_data (cfg : Config) (env : HeartbeatEnv) (msg : Msg) :
    (send_adv cfg env msg).1.data = msg.data := by
  by_cases h : cfg.APP_COMM_ADV_DISABLE = env.bleadv_send_count
  · simp [send_adv, h]
  · by_cases h2 : cfg.APP_COMM_ADV_REPEAT_FOREVER = env.bleadv_send_count <;>
      simp [send_adv, h, h2]

/-- The broadcast block of lines 120-126: when the rate limiter lets it run,
`send_adv` runs once and `last_led_flash_ms` takes the reading of line 121;
otherwise `send_adv` does not run and `last_led_flash_ms` is unchanged. -/
theorem heartbeat_broadcast_block (cfg : Config) (env : HeartbeatEnv) (s : State) :
    (u64_of_i64 (add_i64 s.last_led_flash_ms 1950) < env.rtc_rate_limit →
      send_adv_calls (heartbeat cfg env s).events = 1 ∧
      (heartbeat cfg env s).state.last_led_flash_ms = i64_of_u64 env.rtc_led_flash ∧
      broadcast_sends (heartbeat cfg env s).events
        = (if cfg.APP_COMM_ADV_DISABLE ≠ env.bleadv_send_count then 1 else 0)) ∧
    (¬ u64_of_i64 (add_i64 s.last_led_flash_ms 1950) < env.rtc_rate_limit →
      send_adv_calls (heartbeat cfg env s).events = 0 ∧
      (heartbeat cfg env s).state.last_led_flash_ms = s.last_led_flash_ms ∧
      broadcast_sends (heartbeat cfg env s).events = 0) := by
  unfold heartbeat heartbeat_gatt heartbeat_finish send_adv_calls broadcast_sends
  simp only [error_check_events, send_adv_events, not_u32_not_u32]
  split_ifs <;>
    simp_all [List.countP_cons, Event.is_send_adv_call, Event.is_adv_send]

/-- A pipeline execution returns, or it was stopped by the fatal-error handler. -/
theorem heartbeat_returns_or_stopped (cfg : Config) (env : HeartbeatEnv) (s : State) :
    (heartbeat cfg env s).ret = some () ∨
      (heartbeat cfg env s).stopped_by_fatal_handler = true := by
  unfold heartbeat heartbeat_gatt heartbeat_finish Result.stopped_by_fatal_handler
  simp only [error_check_events, error_check_passes, not_u32_not_u32]
  split_ifs <;> simp_all [Event.is_fatal_handler]

/-- A pipeline execution returns when the handler gives control back or no status
carries the fatal bit. -/
theorem heartbeat_returns (cfg : Config) (env : HeartbeatEnv) (s : State)
    (h : env.fatal_handler_returns = true ∨
      (env.adv_send_status &&& cfg.RD_ERROR_FATAL = 0 ∧
        env.gatt_send_status &&& cfg.RD_ERROR_FATAL = 0)) :
    (heartbeat cfg env s).ret = some () := by
  unfold heartbeat heartbeat_gatt heartbeat_finish
  simp only [error_check_passes, send_adv_status]
  rcases h with h | ⟨h1, h2⟩
  · split_ifs <;> simp_all
  · split_ifs <;> simp_all [RD_SUCCESS]

/-- A pipeline execution leaves the cadence variables alone. -/
theorem heartbeat_frame (cfg : Config) (env : HeartbeatEnv) (s : State) :
    (heartbeat cfg env s).state.heartbeat_gatt_live_until = s.heartbeat_gatt_live_until ∧
    (heartbeat cfg env s).state.heartbeat_gatt_interval_dynamic_ms
      = s.heartbeat_gatt_interval_dynamic_ms ∧
    (heartbeat cfg env s).state.heartbeat_interval_ms = s.heartbeat_interval_ms ∧
    (heartbeat cfg env s).state.timer_running = s.timer_running ∧
    (heartbeat cfg env s).state.heart_timer = s.heart_timer ∧
    (heartbeat cfg env s).state.last_accelerometer_active_time_ms
      = s.last_accelerometer_active_time_ms := by
  unfold heartbeat heartbeat_gatt heartbeat_finish
  dsimp only
  split_ifs <;> simp

/-- A pipeline execution reads the sensors exactly once. -/
theorem heartbeat_executes_once (cfg : Config) (env : HeartbeatEnv) (s : State) :
    pipeline_executions (heartbeat cfg env s).events = 1 := by
  unfold heartbeat heartbeat_gatt heartbeat_finish pipeline_executions
  simp only [error_check_events, send_adv_events]
  split_ifs <;> simp [List.countP_cons, Event.is_sensor_get]

/-! ## Facts on the sleep-admission decision -/

/-- A tick never moves the end of the live window. -/
theorem should_sleep_keeps_live_until (cfg : Config) (env : ShouldSleepEnv) (s : State) :
    (app_heartbeat_should_sleep cfg env s).state.heartbeat_gatt_live_until
      = s.heartbeat_gatt_live_until := by
  unfold app_heartbeat_should_sleep
  split_ifs <;> simp [(heartbeat_frame cfg env.hb s).1]

/-- A tick whose first clock reading is not past the stored deadline returns
false, unless the pipeline it ran was stopped by the fatal-error handler. -/
theorem should_sleep_open (cfg : Config) (env : ShouldSleepEnv) (s : State)
    (h : ¬ u64_of_i64 s.heartbeat_gatt_live_until < env.rtc_live) :
    ((app_heartbeat_should_sleep cfg env s).ret = some false ∨
      (app_heartbeat_should_sleep cfg env s).stopped_by_fatal_handler = true) ∧
    (env.hb.fatal_handler_returns = true ∨
        (env.hb.adv_send_status &&& cfg.RD_ERROR_FATAL = 0 ∧
          env.hb.gatt_send_status &&& cfg.RD_ERROR_FATAL = 0) →
      (app_heartbeat_should_sleep cfg env s).ret = some false) := by
  unfold app_heartbeat_should_sleep
  rw [if_neg h]
  split_ifs with hdue
  · constructor
    · rcases heartbeat_returns_or_stopped cfg env.hb s with hr | hr
      · left; simp [hr]
      · right
        simp only [Result.stopped_by_fatal_handler, Bool.and_eq_true] at hr ⊢
        refine ⟨?_, hr.2⟩
        cases hret : (heartbeat cfg env.hb s).ret <;> simp_all
    · intro hok
      simp [heartbeat_returns cfg env.hb s hok]
  · simp

/-- Every tick of a run made while the first clock reading of each tick is not
past the stored deadline returns false or is stopped by the fatal-error handler;
when the handler always gives control back, every tick returns false. -/
theorem should_sleep_ticks_open (cfg : Config) (envs : List ShouldSleepEnv) :
    ∀ s : State,
      (∀ env ∈ envs, ¬ u64_of_i64 s.heartbeat_gatt_live_until < env.rtc_live) →
      (∀ r ∈ should_sleep_ticks cfg s envs,
        r.ret = some false ∨ r.stopped_by_fatal_handler = true) ∧
      ((∀ env ∈ envs, env.hb.fatal_handler_returns = true) →
        (should_sleep_ticks cfg s envs).map (fun r => r.ret)
          = envs.map (fun _ => some false)) := by
  induction envs with
  | nil => intro s _; simp [should_sleep_ticks]
  | cons env envs ih =>
    intro s h
    have hhead := should_sleep_open cfg env s (h env (List.mem_cons_self _ _))
    have htail := ih (app_heartbeat_should_sleep cfg env s).state (by
      intro e he
      rw [should_sleep_keeps_live_until]
      exact h e (List.mem_cons_of_mem _ he))
    constructor
    · intro r hr
      simp only [should_sleep_ticks, List.mem_cons] at hr
      rcases hr with rfl | hr
      · exact hhead.1
      · cases hret : (app_heartbeat_should_sleep cfg env s).ret with
        | none => simp [hret] at hr
        | some b =>
          simp only [hret] at hr
          exact htail.1 r hr
    · intro hall
      have h1 := hhead.2 (Or.inl (hall env (List.mem_cons_self _ _)))
      have h2 := htail.2 (fun e he => hall e (List.mem_cons_of_mem _ he))
      simp only [should_sleep_ticks, h1, List.map_cons, h2]

/-! ## The claims -/

/-- C1. While the live window is open (the clock reading of the tick is below
`heartbeat_gatt_live_until`), `app_heartbeat_should_sleep` returns false whether
or not it ran the pipeline: the call returns false or never returns because the
fatal-error handler kept control, and it does return false whenever the handler
gives control back or no send status carries the fatal bit.  In particular,
after `app_heartbeat_set_gatt_interval_ms` at clock reading `t` (with `t + 30000`
representable in 64 bits), every tick of any run of ticks with readings below
`t + 30000` returns false (or is stopped by the handler), and all of them return
false when the handler gives control back. -/
theorem should_sleep_false_while_live_window_open (cfg : Config) :
    (∀ (env : ShouldSleepEnv) (s : State),
      s.heartbeat_gatt_live_until < 2 ^ 64 →
      (env.rtc_live : Int) < s.heartbeat_gatt_live_until →
        ((app_heartbeat_should_sleep cfg env s).ret = some false ∨
          (app_heartbeat_should_sleep cfg env s).stopped_by_fatal_handler = true) ∧
        (env.hb.fatal_handler_returns = true ∨
            (env.hb.adv_send_status &&& cfg.RD_ERROR_FATAL = 0 ∧
              env.hb.gatt_send_status &&& cfg.RD_ERROR_FATAL = 0) →
          (app_heartbeat_should_sleep cfg env s).ret = some false)) ∧
    (∀ (t interval_ms : Nat) (s : State) (envs : List ShouldSleepEnv),
      t + 30000 < 2 ^ 64 →
      (∀ env ∈ envs, env.rtc_live < t + 30000) →
        (∀ r ∈ should_sleep_ticks cfg
            (app_heartbeat_set_gatt_interval_ms t interval_ms s).state envs,
          r.ret = some false ∨ r.stopped_by_fatal_handler = true) ∧
        ((∀ env ∈ envs, env.hb.fatal_handler_returns = true) →
          (should_sleep_ticks cfg
              (app_heartbeat_set_gatt_interval_ms t interval_ms s).state envs).map
            (fun r => r.ret) = envs.map (fun _ => some false))) := by
  constructor
  · intro env s hs hlive
    apply should_sleep_open
    have := u64_of_i64_eq s.heartbeat_gatt_live_until (by omega) hs
    omega
  · intro t interval_ms s envs ht henvs
    apply should_sleep_ticks_open
    intro env henv
    have h1 := henvs env henv
    simp only [app_heartbeat_set_gatt_interval_ms, u64_of_i64_of_u64]
    omega

/-- C1, worked example: `set_gatt_interval (500)` at `t = 0` on the boot state,
then ticks at 200 (no pipeline) and 600 (pipeline runs) both return false. -/
theorem should_sleep_false_while_live_window_open_witness :
    (((example_tick 200).rtc_live : Int)
      < (app_heartbeat_set_gatt_interval_ms 0 500 boot_state).state.heartbeat_gatt_live_until) ∧
    (app_heartbeat_should_sleep example_cfg (example_tick 200)
        (app_heartbeat_set_gatt_interval_ms 0 500 boot_state).state).ret = some false ∧
    (should_sleep_ticks example_cfg
        (app_heartbeat_set_gatt_interval_ms 0 500 boot_state).state
        [example_tick 200, example_tick 600]).map (fun r => r.ret)
      = [some false, some false] :=
  ⟨by decide,
   ((should_sleep_false_while_live_window_open example_cfg).1 (example_tick 200)
      (app_heartbeat_set_gatt_interval_ms 0 500 boot_state).state
      (by decide) (by decide)).2 (Or.inl rfl),
   ((should_sleep_false_while_live_window_open example_cfg).2 0 500 boot_state
      [example_tick 200, example_tick 600] (by decide) (by decide)).2 (by decide)⟩

/-- C2, counterexample: the claim promises true for every reading
`now >= gatt_deadline`, including `now == gatt_deadline`.  After a successful
`app_heartbeat_init` at clock reading 1000 the deadline is 1000, and a tick at
the same reading 1000 returns false. -/
theorem should_sleep_at_deadline_counterexample :
    (app_heartbeat_init example_cfg (example_init 1000) boot_state).ret = some RD_SUCCESS ∧
    (app_heartbeat_init example_cfg (example_init 1000) boot_state).state.heartbeat_gatt_live_until
      = 1000 ∧
    (((example_tick 1000).rtc_live : Int)
      ≥ (app_heartbeat_init example_cfg (example_init 1000)
          boot_state).state.heartbeat_gatt_live_until) ∧
    (app_heartbeat_should_sleep example_cfg (example_tick 1000)
        (app_heartbeat_init example_cfg (example_init 1000) boot_state).state).ret
      = some false := by
  decide

/-- C2, amended. For every state whose deadline is a non-negative `int64_t` and
every clock reading, `app_heartbeat_should_sleep` returns true exactly when the
reading is strictly past the deadline (`gatt_deadline < now`); at
`now == gatt_deadline` and before, it does not return true.  In particular a tick
made after `app_heartbeat_init` (which stores its clock reading as the deadline)
returns true at every reading strictly after the one of the init. -/
theorem should_sleep_true_iff_deadline_passed (cfg : Config) :
    (∀ (env : ShouldSleepEnv) (s : State),
      0 ≤ s.heartbeat_gatt_live_until → s.heartbeat_gatt_live_until < 2 ^ 63 →
        ((app_heartbeat_should_sleep cfg env s).ret = some true
          ↔ s.heartbeat_gatt_live_until < (env.rtc_live : Int))) ∧
    (∀ (ienv : InitEnv) (env : ShouldSleepEnv) (s : State),
      ienv.rtc_live_until < 2 ^ 63 →
        ((app_heartbeat_init cfg ienv s).state.heartbeat_gatt_live_until
            = (ienv.rtc_live_until : Int)) ∧
        (ienv.rtc_live_until < env.rtc_live →
          (app_heartbeat_should_sleep cfg env (app_heartbeat_init cfg ienv s).state).ret
            = some true)) := by
  have key : ∀ (env : ShouldSleepEnv) (s : State),
      0 ≤ s.heartbeat_gatt_live_until → s.heartbeat_gatt_live_until < 2 ^ 63 →
        ((app_heartbeat_should_sleep cfg env s).ret = some true
          ↔ s.heartbeat_gatt_live_until < (env.rtc_live : Int)) := by
    intro env s h0 h1
    have hu := u64_of_i64_eq s.heartbeat_gatt_live_until h0 (by omega)
    unfold app_heartbeat_should_sleep
    by_cases hlt : u64_of_i64 s.heartbeat_gatt_live_until < env.rtc_live
    · rw [if_pos hlt]
      have : s.heartbeat_gatt_live_until < (env.rtc_live : Int) := by omega
      split_ifs <;> simp [this]
    · rw [if_neg hlt]
      have : ¬ s.heartbeat_gatt_live_until < (env.rtc_live : Int) := by omega
      split_ifs
      · cases (heartbeat cfg env.hb s).ret <;> simp [this]
      · simp [this]
  refine ⟨key, ?_⟩
  intro ienv env s hi
  have hdl : (app_heartbeat_init cfg ienv s).state.heartbeat_gatt_live_until
      = (ienv.rtc_live_until : Int) := by
    unfold app_heartbeat_init
    dsimp only
    split_ifs <;> exact i64_of_u64_eq _ hi
  refine ⟨hdl, ?_⟩
  intro hlt
  rw [key env _ (by rw [hdl]; omega) (by rw [hdl]; omega), hdl]
  omega

/-- C2 amended, worked example: after a successful init at reading 1000 a tick at
reading 1001 returns true. -/
theorem should_sleep_true_iff_deadline_passed_witness :
    (example_init 1000).rtc_live_until < 2 ^ 63 ∧
    (example_init 1000).rtc_live_until < (example_tick 1001).rtc_live ∧
    (app_heartbeat_should_sleep example_cfg (example_tick 1001)
        (app_heartbeat_init example_cfg (example_init 1000) boot_state).state).ret
      = some true :=
  ⟨by decide, by decide,
   ((should_sleep_true_iff_deadline_passed example_cfg).2 (example_init 1000)
      (example_tick 1001) boot_state (by decide)).2 (by decide)⟩

/-- C3, counterexample: the claim has the pipeline run when
`now - last_tick >= gatt_interval_ms`.  With `last_tick = 0` and
`set_gatt_interval (500)` at `t = 0`, the tick at `t = 500` finds the window open
and `500 - 0 >= 500`, yet runs no pipeline. -/
theorem should_sleep_interval_boundary_counterexample :
    (app_heartbeat_set_gatt_interval_ms 0 500 boot_state).state.last_hb_ms = 0 ∧
    (app_heartbeat_set_gatt_interval_ms 0 500
      boot_state).state.heartbeat_gatt_interval_dynamic_ms = 500 ∧
    (((example_tick 500).rtc_live : Int)
      < (app_heartbeat_set_gatt_interval_ms 0 500 boot_state).state.heartbeat_gatt_live_until) ∧
    (((example_tick 500).rtc_due : Int)
        - (app_heartbeat_set_gatt_interval_ms 0 500 boot_state).state.last_hb_ms
      ≥ ((app_heartbeat_set_gatt_interval_ms 0 500
          boot_state).state.heartbeat_gatt_interval_dynamic_ms : Int)) ∧
    pipeline_executions (app_heartbeat_should_sleep example_cfg (example_tick 500)
      (app_heartbeat_set_gatt_interval_ms 0 500 boot_state).state).events = 0 ∧
    (app_heartbeat_should_sleep example_cfg (example_tick 500)
      (app_heartbeat_set_gatt_interval_ms 0 500 boot_state).state).events = [] := by
  decide

/-- C3, amended. While the live window is open (the reading of line 238 is not
past the deadline), a call to `app_heartbeat_should_sleep` executes the pipeline
exactly once if `now - last_tick > gatt_interval_ms` (strictly, `now` being the
reading of line 246): its state, driver calls and completion are those of one
`heartbeat`, with one sensor read.  Otherwise, in particular at
`now - last_tick == gatt_interval_ms`, it executes nothing: no driver call, state
unchanged, false returned.  `last_tick` is taken non-negative and
`last_tick + gatt_interval_ms` representable as `int64_t`. -/
theorem should_sleep_runs_pipeline_iff_interval_exceeded (cfg : Config)
    (env : ShouldSleepEnv) (s : State)
    (hrange : s.heartbeat_gatt_live_until < 2 ^ 63)
    (hopen : (env.rtc_live : Int) ≤ s.heartbeat_gatt_live_until)
    (h0 : 0 ≤ s.last_hb_ms)
    (h1 : s.last_hb_ms + (s.heartbeat_gatt_interval_dynamic_ms : Int) < 2 ^ 63) :
    ((env.rtc_due : Int) - s.last_hb_ms > (s.heartbeat_gatt_interval_dynamic_ms : Int) →
      (app_heartbeat_should_sleep cfg env s).state = (heartbeat cfg env.hb s).state ∧
      (app_heartbeat_should_sleep cfg env s).events = (heartbeat cfg env.hb s).events ∧
      (app_heartbeat_should_sleep cfg env s).ret
        = (heartbeat cfg env.hb s).ret.map (fun _ => false) ∧
      pipeline_executions (app_heartbeat_should_sleep cfg env s).events = 1) ∧
    (¬ (env.rtc_due : Int) - s.last_hb_ms > (s.heartbeat_gatt_interval_dynamic_ms : Int) →
      (app_heartbeat_should_sleep cfg env s).state = s ∧
      (app_heartbeat_should_sleep cfg env s).events = [] ∧
      (app_heartbeat_should_sleep cfg env s).ret = some false ∧
      pipeline_executions (app_heartbeat_should_sleep cfg env s).events = 0) := by
  have hlive : ¬ u64_of_i64 s.heartbeat_gatt_live_until < env.rtc_live := by
    have := u64_of_i64_eq s.heartbeat_gatt_live_until (by omega) (by omega)
    omega
  have hsum := u64_of_add_i64 s.last_hb_ms (s.heartbeat_gatt_interval_dynamic_ms : Int)
    (by omega) (by omega)
  unfold app_heartbeat_should_sleep
  rw [if_neg hlive]
  constructor
  · intro hgt
    have hdue : u64_of_i64 (add_i64 s.last_hb_ms (s.heartbeat_gatt_interval_dynamic_ms : Int))
        < env.rtc_due := by omega
    rw [if_pos hdue]
    exact ⟨rfl, rfl, rfl, heartbeat_executes_once cfg env.hb s⟩
  · intro hle
    have hdue : ¬ u64_of_i64 (add_i64 s.last_hb_ms (s.heartbeat_gatt_interval_dynamic_ms : Int))
        < env.rtc_due := by omega
    rw [if_neg hdue]
    exact ⟨rfl, rfl, rfl, rfl⟩

/-- C3 amended, worked example: with `last_tick = 0` and `set_gatt_interval (500)`
at `t = 0`, the tick at `t = 200` runs no pipeline and the tick at `t = 600` runs
exactly one. -/
theorem should_sleep_runs_pipeline_iff_interval_exceeded_witness :
    pipeline_executions (app_heartbeat_should_sleep example_cfg (example_tick 200)
      (app_heartbeat_set_gatt_interval_ms 0 500 boot_state).state).events = 0 ∧
    pipeline_executions (app_heartbeat_should_sleep example_cfg (example_tick 600)
      (app_heartbeat_set_gatt_interval_ms 0 500 boot_state).state).events = 1 :=
  ⟨((should_sleep_runs_pipeline_iff_interval_exceeded example_cfg (example_tick 200)
      (app_heartbeat_set_gatt_interval_ms 0 500 boot_state).state
      (by decide) (by decide) (by decide) (by decide)).2 (by decide)).2.2.2,
   ((should_sleep_runs_pipeline_iff_interval_exceeded example_cfg (example_tick 600)
      (app_heartbeat_set_gatt_interval_ms 0 500 boot_state).state
      (by decide) (by decide) (by decide) (by decide)).1 (by decide)).2.2.2⟩

/-- C4. For every state, clock reading and interval,
`app_heartbeat_set_gatt_interval_ms` returns `RD_SUCCESS`; its only driver call is
one `ri_timer_stop` on the heartbeat timer (so no pipeline execution); afterwards
`timer_running` is false, the dynamic interval is `interval_ms`, and the deadline
is `now + 30000`: as the unsigned value the comparison of `should_sleep` reads,
modulo 2^64, and as the stored `int64_t` whenever `now + 30000 < 2^63`.  Base
interval, `last_hb_ms`, `last_heartbeat_timestamp_ms`, `last_led_flash_ms`, the
format state, the timer handle and the accelerometer time are unchanged. -/
theorem set_gatt_interval_effect (rtc interval_ms : Nat) (s : State) :
    (app_heartbeat_set_gatt_interval_ms rtc interval_ms s).ret = some RD_SUCCESS ∧
    (app_heartbeat_set_gatt_interval_ms rtc interval_ms s).events
      = [Event.timer_stop s.heart_timer] ∧
    pipeline_executions (app_heartbeat_set_gatt_interval_ms rtc interval_ms s).events = 0 ∧
    (app_heartbeat_set_gatt_interval_ms rtc interval_ms s).state.timer_running = false ∧
    (app_heartbeat_set_gatt_interval_ms rtc interval_ms
      s).state.heartbeat_gatt_interval_dynamic_ms = interval_ms ∧
    u64_of_i64 (app_heartbeat_set_gatt_interval_ms rtc interval_ms
      s).state.heartbeat_gatt_live_until = (rtc + 30000) % 2 ^ 64 ∧
    (rtc + 30000 < 2 ^ 63 →
      (app_heartbeat_set_gatt_interval_ms rtc interval_ms s).state.heartbeat_gatt_live_until
        = (rtc : Int) + 30000) ∧
    (app_heartbeat_set_gatt_interval_ms rtc interval_ms s).state.heartbeat_interval_ms
      = s.heartbeat_interval_ms ∧
    (app_heartbeat_set_gatt_interval_ms rtc interval_ms s).state.last_hb_ms = s.last_hb_ms ∧
    (app_heartbeat_set_gatt_interval_ms rtc interval_ms s).state.last_heartbeat_timestamp_ms
      = s.last_heartbeat_timestamp_ms ∧
    (app_heartbeat_set_gatt_interval_ms rtc interval_ms s).state.last_led_flash_ms
      = s.last_led_flash_ms ∧
    (app_heartbeat_set_gatt_interval_ms rtc interval_ms s).state.m_dataformat_state
      = s.m_dataformat_state ∧
    (app_heartbeat_set_gatt_interval_ms rtc interval_ms s).state.heart_timer = s.heart_timer ∧
    (app_heartbeat_set_gatt_interval_ms rtc interval_ms
      s).state.last_accelerometer_active_time_ms = s.last_accelerometer_active_time_ms := by
  refine ⟨rfl, rfl, rfl, rfl, rfl, ?_, ?_, rfl, rfl, rfl, rfl, rfl, rfl, rfl⟩
  · simp only [app_heartbeat_set_gatt_interval_ms, u64_of_i64_of_u64]
    omega
  · intro h
    simp only [app_heartbeat_set_gatt_interval_ms]
    rw [i64_of_u64_eq _ (by omega)]
    omega

/-- C4, worked example: `set_gatt_interval (500)` at reading 7000 on the state
left by a successful init sets the deadline to 37000. -/
theorem set_gatt_interval_effect_witness :
    (app_heartbeat_set_gatt_interval_ms 7000 500
      (app_heartbeat_init example_cfg (example_init 1000)
        boot_state).state).state.heartbeat_gatt_live_until = 37000 :=
  (set_gatt_interval_effect 7000 500
    (app_heartbeat_init example_cfg (example_init 1000) boot_state).state).2.2.2.2.2.2.1
    (by decide)

/-- C5, counterexample: advertising is disabled, so the broadcast send is not
attempted (`send_adv` only calls `rt_adv_stop` and reports `RD_SUCCESS`), and the
connection-oriented send returns the error 8; no channel send succeeded, yet the
watchdog is fed and `last_heartbeat_timestamp_ms` moves from 0 to 5000. -/
theorem heartbeat_feeds_without_send_counterexample :
    broadcast_sends (heartbeat example_cfg (example_hb_adv_disabled 5000) boot_state).events = 0 ∧
    (example_hb_adv_disabled 5000).gatt_send_status ≠ RD_SUCCESS ∧
    watchdog_feeds (heartbeat example_cfg (example_hb_adv_disabled 5000) boot_state).events = 1 ∧
    boot_state.last_heartbeat_timestamp_ms = 0 ∧
    (heartbeat example_cfg (example_hb_adv_disabled 5000)
      boot_state).state.last_heartbeat_timestamp_ms = 5000 := by
  decide

/-- C5, amended. For every pipeline execution in which the broadcast send was
attempted and returned an error and the connection-oriented send returned an
error, the watchdog is not fed and `last_heartbeat_timestamp_ms` is left
unchanged, so `app_heartbeat_overdue` is true at every clock reading past
`last_heartbeat_timestamp_ms + APP_HEARTBEAT_OVERDUE_INTERVAL_MS`. -/
theorem heartbeat_failed_sends_no_feed (cfg : Config) (env : HeartbeatEnv) (s : State)
    (hattempt : 0 < broadcast_sends (heartbeat cfg env s).events)
    (hadv : env.adv_send_status ≠ RD_SUCCESS)
    (hgatt : env.gatt_send_status ≠ RD_SUCCESS) :
    watchdog_feeds (heartbeat cfg env s).events = 0 ∧
    (heartbeat cfg env s).state.last_heartbeat_timestamp_ms = s.last_heartbeat_timestamp_ms ∧
    (∀ rtc : Nat,
      s.last_heartbeat_timestamp_ms + cfg.APP_HEARTBEAT_OVERDUE_INTERVAL_MS < rtc →
        app_heartbeat_overdue cfg rtc (heartbeat cfg env s).state = true) := by
  have hmain : watchdog_feeds (heartbeat cfg env s).events = 0 ∧
      (heartbeat cfg env s).state.last_heartbeat_timestamp_ms
        = s.last_heartbeat_timestamp_ms := by
    revert hattempt
    unfold heartbeat heartbeat_gatt heartbeat_finish watchdog_feeds broadcast_sends
    simp only [error_check_events, send_adv_events, send_adv_status]
    split_ifs <;>
      simp_all [List.countP_cons, Event.is_watchdog_feed, Event.is_adv_send, RD_SUCCESS]
  refine ⟨hmain.1, hmain.2, ?_⟩
  intro rtc hrtc
  unfold app_heartbeat_overdue
  rw [hmain.2]
  simp only [gt_iff_lt, decide_eq_true_eq]
  omega

/-- C5 amended, worked example: the rate limiter lets the broadcast through, the
advertisement fails with status 4 and the GATT send with status 8. -/
theorem heartbeat_failed_sends_no_feed_witness :
    0 < broadcast_sends (heartbeat example_cfg (example_hb 5000 4 8) boot_state).events ∧
    watchdog_feeds (heartbeat example_cfg (example_hb 5000 4 8) boot_state).events = 0 ∧
    app_heartbeat_overdue example_cfg 15001
      (heartbeat example_cfg (example_hb 5000 4 8) boot_state).state = true :=
  ⟨by decide,
   (heartbeat_failed_sends_no_feed example_cfg (example_hb 5000 4 8) boot_state
      (by decide) (by decide) (by decide)).1,
   (heartbeat_failed_sends_no_feed example_cfg (example_hb 5000 4 8) boot_state
      (by decide) (by decide) (by decide)).2.2 15001 (by decide)⟩

set_option maxHeartbeats 1000000 in
/-- C6. For every pipeline execution in which the broadcast send was made and
returned `RD_SUCCESS`, or the connection-oriented send was made and returned
`RD_SUCCESS`, the watchdog is fed exactly once and
`last_heartbeat_timestamp_ms` is the clock reading of line 159. -/
theorem heartbeat_success_feeds_watchdog (cfg : Config) (env : HeartbeatEnv) (s : State)
    (h : (0 < broadcast_sends (heartbeat cfg env s).events ∧
          env.adv_send_status = RD_SUCCESS) ∨
        (gatt_sends (heartbeat cfg env s).events ≠ [] ∧
          env.gatt_send_status = RD_SUCCESS)) :
    watchdog_feeds (heartbeat cfg env s).events = 1 ∧
    (heartbeat cfg env s).state.last_heartbeat_timestamp_ms = env.rtc_timestamp := by
  revert h
  unfold heartbeat heartbeat_gatt heartbeat_finish watchdog_feeds broadcast_sends gatt_sends
  simp only [error_check_events, error_check_passes, send_adv_events, send_adv_status,
    not_u32_not_u32, @eq_comm Nat RD_SUCCESS]
  split_ifs <;>
    simp_all [List.countP_cons, Event.is_watchdog_feed, Event.is_adv_send, RD_SUCCESS]
  intro h0
  simp_all

/-- C6, worked example: the advertisement succeeds while the GATT send fails. -/
theorem heartbeat_success_feeds_watchdog_witness :
    watchdog_feeds (heartbeat example_cfg (example_hb 5000 0 8) boot_state).events = 1 ∧
    (heartbeat example_cfg (example_hb 5000 0 8)
      boot_state).state.last_heartbeat_timestamp_ms = 5000 :=
  heartbeat_success_feeds_watchdog example_cfg (example_hb 5000 0 8) boot_state
    (Or.inl ⟨by decide, by decide⟩)

/-- C7. For every starting state and every pair of send statuses without the
fatal bit, a pipeline execution returns and ends with `last_hb_ms` equal to the
clock reading of line 162 (converted to `int64_t`; the reading itself when it is
below 2^63). -/
theorem heartbeat_sets_last_tick (cfg : Config) (env : HeartbeatEnv) (s : State)
    (hadv : env.adv_send_status &&& cfg.RD_ERROR_FATAL = 0)
    (hgatt : env.gatt_send_status &&& cfg.RD_ERROR_FATAL = 0) :
    (heartbeat cfg env s).ret = some () ∧
    (heartbeat cfg env s).state.last_hb_ms = i64_of_u64 env.rtc_last_hb ∧
    (env.rtc_last_hb < 2 ^ 63 →
      (heartbeat cfg env s).state.last_hb_ms = (env.rtc_last_hb : Int)) := by
  have hlast : (heartbeat cfg env s).state.last_hb_ms = i64_of_u64 env.rtc_last_hb := by
    unfold heartbeat heartbeat_gatt heartbeat_finish
    simp only [error_check_passes, send_adv_status]
    split_ifs <;> simp_all [RD_SUCCESS]
  refine ⟨heartbeat_returns cfg env s (Or.inr ⟨hadv, hgatt⟩), hlast, ?_⟩
  intro hr
  rw [hlast, i64_of_u64_eq _ hr]

/-- C7, worked example: both sends fail with non-fatal statuses at reading 5000. -/
theorem heartbeat_sets_last_tick_witness :
    (heartbeat example_cfg (example_hb 5000 4 8) boot_state).state.last_hb_ms = 5000 :=
  (heartbeat_sets_last_tick example_cfg (example_hb 5000 4 8) boot_state
    (by decide) (by decide)).2.2 (by decide)

/-- C8, counterexample: the claim has the broadcast channel handled when exactly
1950 ms have elapsed.  With the last broadcast at 0, the execution at clock
reading 1950 has `now - last_broadcast >= 1950`, yet `send_adv` is not invoked
and `last_led_flash_ms` stays 0. -/
theorem heartbeat_broadcast_at_1950_counterexample :
    boot_state.last_led_flash_ms = 0 ∧
    (((example_hb 1950 0 0).rtc_rate_limit : Int) - boot_state.last_led_flash_ms ≥ 1950) ∧
    send_adv_calls (heartbeat example_cfg (example_hb 1950 0 0) boot_state).events = 0 ∧
    (heartbeat example_cfg (example_hb 1950 0 0) boot_state).state.last_led_flash_ms = 0 := by
  decide

/-- C8, amended. In a pipeline execution the broadcast channel is handled
(`send_adv` invoked, once, and `last_led_flash_ms` set to the clock reading of
line 121) if and only if more than 1950 ms have elapsed since the last broadcast,
`now - last_led_flash_ms > 1950` with `now` the reading of line 120; when exactly
1950 ms or less have elapsed, `send_adv` is not invoked and `last_led_flash_ms`
is unchanged.  `last_led_flash_ms` is taken non-negative with
`last_led_flash_ms + 1950` representable as `int64_t`. -/
theorem heartbeat_broadcast_iff_past_1950 (cfg : Config) (env : HeartbeatEnv) (s : State)
    (h0 : 0 ≤ s.last_led_flash_ms) (h1 : s.last_led_flash_ms + 1950 < 2 ^ 63) :
    ((env.rtc_rate_limit : Int) - s.last_led_flash_ms > 1950 ↔
      send_adv_calls (heartbeat cfg env s).events = 1) ∧
    ((env.rtc_rate_limit : Int) - s.last_led_flash_ms > 1950 →
      (heartbeat cfg env s).state.last_led_flash_ms = i64_of_u64 env.rtc_led_flash) ∧
    (¬ (env.rtc_rate_limit : Int) - s.last_led_flash_ms > 1950 →
      send_adv_calls (heartbeat cfg env s).events = 0 ∧
      (heartbeat cfg env s).state.last_led_flash_ms = s.last_led_flash_ms) := by
  have hsum := u64_of_add_i64 s.last_led_flash_ms 1950 (by omega) (by omega)
  have hiff : (env.rtc_rate_limit : Int) - s.last_led_flash_ms > 1950 ↔
      u64_of_i64 (add_i64 s.last_led_flash_ms 1950) < env.rtc_rate_limit := by
    omega
  have hblock := heartbeat_broadcast_block cfg env s
  by_cases hdue : u64_of_i64 (add_i64 s.last_led_flash_ms 1950) < env.rtc_rate_limit
  · have hb := hblock.1 hdue
    have hgt := hiff.2 hdue
    exact ⟨⟨fun _ => hb.1, fun _ => hgt⟩, fun _ => hb.2.1, fun hn => absurd hgt hn⟩
  · have hb := hblock.2 hdue
    have hngt : ¬ (env.rtc_rate_limit : Int) - s.last_led_flash_ms > 1950 :=
      fun hgt => hdue (hiff.1 hgt)
    refine ⟨⟨fun hgt => absurd hgt hngt, fun h1 => ?_⟩, fun hgt => absurd hgt hngt,
      fun _ => ⟨hb.1, hb.2.1⟩⟩
    rw [hb.1] at h1
    exact absurd h1 (by decide)

/-- C8 amended, worked example: last broadcast at 0, execution at reading 1951. -/
theorem heartbeat_broadcast_iff_past_1950_witness :
    send_adv_calls (heartbeat example_cfg (example_hb 1951 0 0) boot_state).events = 1 ∧
    (heartbeat example_cfg (example_hb 1951 0 0) boot_state).state.last_led_flash_ms = 1951 :=
  ⟨(heartbeat_broadcast_iff_past_1950 example_cfg (example_hb 1951 0 0) boot_state
      (by decide) (by decide)).1.1 (by decide),
   (heartbeat_broadcast_iff_past_1950 example_cfg (example_hb 1951 0 0) boot_state
      (by decide) (by decide)).2.1 (by decide)⟩

/-- In a run of executions with non-decreasing clock readings, started from a
state whose `last_led_flash_ms` is at least `last`, every execution in which
`send_adv` runs has its reading of line 121 more than 1950 ms after `last`. -/
theorem heartbeat_runs_block_after (cfg : Config) (last : Nat) (envs : List HeartbeatEnv) :
    ∀ s : State,
      (last : Int) ≤ s.last_led_flash_ms → s.last_led_flash_ms + 1950 < 2 ^ 63 →
      (clock_readings envs).Pairwise (fun a b => a ≤ b) →
      (∀ t ∈ clock_readings envs, t + 1950 < 2 ^ 63) →
      ∀ p ∈ heartbeat_runs cfg s envs, 0 < send_adv_calls p.2.events →
        last + 1950 < p.1.rtc_led_flash := by
  induction envs with
  | nil => intro s _ _ _ _ p hp; simp [heartbeat_runs] at hp
  | cons env envs ih =>
    intro s hlast hrange hmono hbound p hp hsend
    simp only [clock_readings, HeartbeatEnv.readings, List.pairwise_append] at hmono
    have hle : env.rtc_rate_limit ≤ env.rtc_led_flash := by
      have := hmono.1
      simp only [List.pairwise_cons] at this
      exact this.1 _ (List.mem_cons_self _ _)
    have hflash : env.rtc_led_flash + 1950 < 2 ^ 63 :=
      hbound _ (by simp [clock_readings, HeartbeatEnv.readings])
    have hsum := u64_of_add_i64 s.last_led_flash_ms 1950 (by omega) (by omega)
    have hblock := heartbeat_broadcast_block cfg env s
    simp only [heartbeat_runs, List.mem_cons] at hp
    rcases hp with rfl | hp
    · by_cases hdue : u64_of_i64 (add_i64 s.last_led_flash_ms 1950) < env.rtc_rate_limit
      · simp only
        omega
      · have := (hblock.2 hdue).1
        simp only at hsend
        omega
    · cases hret : (heartbeat cfg env s).ret with
      | none => simp [hret] at hp
      | some u =>
        simp only [hret] at hp
        have hstate : (last : Int) ≤ (heartbeat cfg env s).state.last_led_flash_ms ∧
            (heartbeat cfg env s).state.last_led_flash_ms + 1950 < 2 ^ 63 := by
          by_cases hdue : u64_of_i64 (add_i64 s.last_led_flash_ms 1950) < env.rtc_rate_limit
          · rw [(hblock.1 hdue).2.1, i64_of_u64_eq _ (by omega)]
            omega
          · rw [(hblock.2 hdue).2.1]
            exact ⟨hlast, hrange⟩
        exact ih (heartbeat cfg env s).state hstate.1 hstate.2 hmono.2.1
          (fun t ht => hbound t (by simp [clock_readings, ht])) p hp hsend

/-- In a run of executions with non-decreasing clock readings, the executions in
which `send_adv` runs are pairwise more than 1950 ms apart. -/
theorem broadcast_blocks_apart (cfg : Config) (envs : List HeartbeatEnv) :
    ∀ s : State,
      (clock_readings envs).Pairwise (fun a b => a ≤ b) →
      (∀ t ∈ clock_readings envs, t + 1950 < 2 ^ 63) →
      (broadcast_block_times (heartbeat_runs cfg s envs)).Pairwise
        (fun a b => a + 1950 < b) := by
  induction envs with
  | nil => intro s _ _; simp [heartbeat_runs, broadcast_block_times]
  | cons env envs ih =>
    intro s hmono hbound
    have hmono2 := hmono
    simp only [clock_readings, HeartbeatEnv.readings, List.pairwise_append] at hmono2
    have hbound2 : ∀ t ∈ clock_readings envs, t + 1950 < 2 ^ 63 :=
      fun t ht => hbound t (by simp [clock_readings, ht])
    have hflash : env.rtc_led_flash + 1950 < 2 ^ 63 :=
      hbound _ (by simp [clock_readings, HeartbeatEnv.readings])
    have hblock := heartbeat_broadcast_block cfg env s
    cases hret : (heartbeat cfg env s).ret with
    | none =>
      simp only [heartbeat_runs, hret, broadcast_block_times]
      by_cases hsend : 0 < send_adv_calls (heartbeat cfg env s).events <;>
        simp [List.filter_cons, hsend]
    | some u =>
      have htail := ih (heartbeat cfg env s).state hmono2.2.1 hbound2
      simp only [heartbeat_runs, hret, broadcast_block_times, List.filter_cons]
      by_cases hsend : 0 < send_adv_calls (heartbeat cfg env s).events
      · simp only [hsend, decide_True, if_true, List.map_cons, List.pairwise_cons]
        refine ⟨?_, htail⟩
        intro b hb
        simp only [List.mem_map, List.mem_filter, decide_eq_true_eq] at hb
        obtain ⟨p, ⟨hp, hpsend⟩, rfl⟩ := hb
        have hdue : u64_of_i64 (add_i64 s.last_led_flash_ms 1950) < env.rtc_rate_limit := by
          by_contra hdue
          have := (hblock.2 hdue).1
          omega
        have hstate : (heartbeat cfg env s).state.last_led_flash_ms
            = (env.rtc_led_flash : Int) := by
          rw [(hblock.1 hdue).2.1, i64_of_u64_eq _ (by omega)]
        exact heartbeat_runs_block_after cfg env.rtc_led_flash envs
          (heartbeat cfg env s).state (by rw [hstate]) (by rw [hstate]; omega)
          hmono2.2.1 hbound2 p hp hpsend
      · simp only [hsend, decide_False, Bool.false_eq_true, if_false]
        exact htail

/-- Every execution that called `rt_adv_send_data` is one in which `send_adv`
ran. -/
theorem attempt_times_sublist (runs : List (HeartbeatEnv × Result Unit)) :
    (broadcast_attempt_times runs).Sublist (broadcast_block_times runs) := by
  unfold broadcast_attempt_times broadcast_block_times
  apply List.Sublist.map
  apply List.monotone_filter_right
  intro p hp
  simp only [decide_eq_true_eq] at hp ⊢
  have hle : broadcast_sends p.2.events ≤ send_adv_calls p.2.events := by
    unfold broadcast_sends send_adv_calls
    apply List.countP_mono_left
    intro e _ he
    cases e <;> simp_all [Event.is_adv_send, Event.is_send_adv_call]
  omega

/-- Times that are pairwise more than 1950 apart: at most one of them lies in a
window `[w, w + 1950]`. -/
theorem window_holds_at_most_one (times : List Nat)
    (h : times.Pairwise (fun a b => a + 1950 < b)) (w : Nat) :
    (times.filter (fun t => decide (w ≤ t ∧ t ≤ w + 1950))).length ≤ 1 := by
  induction times with
  | nil => simp
  | cons a times ih =>
    rw [List.pairwise_cons] at h
    by_cases ha : w ≤ a ∧ a ≤ w + 1950
    · have hnone : times.filter (fun t => decide (w ≤ t ∧ t ≤ w + 1950)) = [] := by
        rw [List.filter_eq_nil_iff]
        intro b hb
        have := h.1 b hb
        simp only [decide_eq_true_eq]
        omega
      rw [List.filter_cons_of_pos (by simpa using ha), hnone]
      simp
    · rw [List.filter_cons_of_neg (by simpa using ha)]
      exact ih h.2

/-- C9. For every starting state and every sequence of pipeline executions with
non-decreasing clock readings (all small enough that adding 1950 stays within
`int64_t`), however frequent, any two executions that attempt a broadcast send
are at least 1950 ms apart (in fact more than 1950 ms), so at most one broadcast
attempt falls in any window `[w, w + 1950]`.  The same separation holds between
any two executions in which `send_adv` ran at all, that is also counting those
that found advertising disabled. -/
theorem broadcast_attempts_1950_apart (cfg : Config) (s : State) (envs : List HeartbeatEnv)
    (hmono : (clock_readings envs).Pairwise (fun a b => a ≤ b))
    (hbound : ∀ t ∈ clock_readings envs, t + 1950 < 2 ^ 63) :
    (broadcast_attempt_times (heartbeat_runs cfg s envs)).Pairwise
      (fun a b => a + 1950 ≤ b) ∧
    (broadcast_attempt_times (heartbeat_runs cfg s envs)).Pairwise
      (fun a b => a + 1950 < b) ∧
    (∀ w : Nat,
      ((broadcast_attempt_times (heartbeat_runs cfg s envs)).filter
        (fun t => decide (w ≤ t ∧ t ≤ w + 1950))).length ≤ 1) ∧
    (broadcast_block_times (heartbeat_runs cfg s envs)).Pairwise
      (fun a b => a + 1950 < b) := by
  have hblocks := broadcast_blocks_apart cfg envs s hmono hbound
  have hstrict : (broadcast_attempt_times (heartbeat_runs cfg s envs)).Pairwise
      (fun a b => a + 1950 < b) :=
    hblocks.sublist (attempt_times_sublist _)
  exact ⟨hstrict.imp (fun h => Nat.le_of_lt h), hstrict,
    fun w => window_holds_at_most_one _ hstrict w, hblocks⟩

/-- C9, worked example: executions every 500 ms from reading 2000 to 4000 on the
boot state (last broadcast at 0); only the executions at 2000 and 4000 attempt a
broadcast. -/
theorem broadcast_attempts_1950_apart_witness :
    broadcast_attempt_times (heartbeat_runs example_cfg boot_state
        [example_hb 2000 0 8, example_hb 2500 0 8, example_hb 3000 0 8,
          example_hb 3500 0 8, example_hb 4000 0 8]) = [2000, 4000] ∧
    (broadcast_attempt_times (heartbeat_runs example_cfg boot_state
        [example_hb 2000 0 8, example_hb 2500 0 8, example_hb 3000 0 8,
          example_hb 3500 0 8, example_hb 4000 0 8])).Pairwise (fun a b => a + 1950 ≤ b) :=
  ⟨by decide,
   (broadcast_attempts_1950_apart example_cfg boot_state
      [example_hb 2000 0 8, example_hb 2500 0 8, example_hb 3000 0 8,
        example_hb 3500 0 8, example_hb 4000 0 8] (by decide) (by decide)).1⟩

/-- C10. Every pipeline execution whose broadcast status carries no fatal bit
makes exactly one connection-oriented send, with `data_length = 18` and
`repeat_count = 1` and the encoder's bytes, whether the broadcast was
rate-limited, disabled or failed, and whatever length the encoder reported. -/
theorem heartbeat_one_gatt_send (cfg : Config) (env : HeartbeatEnv) (s : State)
    (hadv : env.adv_send_status &&& cfg.RD_ERROR_FATAL = 0) :
    gatt_sends (heartbeat cfg env s).events
      = [{ data := env.encoded_data, data_length := 18, repeat_count := 1 }] := by
  unfold heartbeat heartbeat_gatt heartbeat_finish gatt_sends
  simp only [error_check_events, error_check_passes, send_adv_events, send_adv_status,
    send_adv_data, not_u32_not_u32]
  split_ifs <;> simp_all [RD_SUCCESS]

/-- C10, worked example: the advertisement fails with the non-fatal status 4 and
the encoder reports 24 bytes. -/
theorem heartbeat_one_gatt_send_witness :
    gatt_sends (heartbeat example_cfg (example_hb 5000 4 8) boot_state).events
      = [{ data := [], data_length := 18, repeat_count := 1 }] :=
  heartbeat_one_gatt_send example_cfg (example_hb 5000 4 8) boot_state (by decide)


/-! ## Further facts on one pipeline execution -/

/-- A pipeline execution in which a send was made and returned `RD_SUCCESS`
stores the clock reading of line 159 in `last_heartbeat_timestamp_ms`. -/
theorem heartbeat_timestamp_of_success (cfg : Config) (env : HeartbeatEnv) (s : State)
    (h : (0 < broadcast_sends (heartbeat cfg env s).events ∧
          env.adv_send_status = RD_SUCCESS) ∨
        (gatt_sends (heartbeat cfg env s).events ≠ [] ∧
          env.gatt_send_status = RD_SUCCESS)) :
    (heartbeat cfg env s).state.last_heartbeat_timestamp_ms = env.rtc_timestamp := by
  revert h
  unfold heartbeat heartbeat_gatt heartbeat_finish broadcast_sends gatt_sends
  simp only [error_check_events, error_check_passes, send_adv_events, send_adv_status,
    not_u32_not_u32, @eq_comm Nat RD_SUCCESS]
  split_ifs <;>
    simp_all [List.countP_cons, Event.is_adv_send, RD_SUCCESS]
  intro h0
  simp_all

/-- A pipeline execution that the rate limiter keeps out of the broadcast block
makes exactly one connection-oriented send, 18 bytes long with repeat count 1. -/
theorem heartbeat_gatt_send_when_limited (cfg : Config) (env : HeartbeatEnv) (s : State)
    (h : ¬ u64_of_i64 (add_i64 s.last_led_flash_ms 1950) < env.rtc_rate_limit) :
    gatt_sends (heartbeat cfg env s).events
      = [{ data := env.encoded_data, data_length := 18, repeat_count := 1 }] := by
  unfold heartbeat heartbeat_gatt heartbeat_finish gatt_sends
  simp only [error_check_events, not_u32_not_u32]
  split_ifs <;> simp_all

/-- A pipeline execution calls neither `ri_timer_start` nor any other timer
function. -/
theorem heartbeat_no_timer_start (cfg : Config) (env : HeartbeatEnv) (s : State) :
    timer_starts (heartbeat cfg env s).events = 0 := by
  unfold heartbeat heartbeat_gatt heartbeat_finish timer_starts
  simp only [error_check_events, send_adv_events, not_u32_not_u32]
  split_ifs <;> simp [List.countP_cons, Event.is_timer_start]

/-! ## The claims, continued -/

/-- C11. For every state and clock reading, with
`last_heartbeat_timestamp_ms + APP_HEARTBEAT_OVERDUE_INTERVAL_MS` representable in
64 bits, `app_heartbeat_overdue` returns true if and only if
`now > last_heartbeat_timestamp_ms + APP_HEARTBEAT_OVERDUE_INTERVAL_MS`.  In
particular it returns false at the clock reading at which an execution with a
successful send stored its timestamp. -/
theorem overdue_iff_threshold_passed (cfg : Config) :
    (∀ (rtc : Nat) (s : State),
      s.last_heartbeat_timestamp_ms + cfg.APP_HEARTBEAT_OVERDUE_INTERVAL_MS < 2 ^ 64 →
        (app_heartbeat_overdue cfg rtc s = true
          ↔ rtc > s.last_heartbeat_timestamp_ms + cfg.APP_HEARTBEAT_OVERDUE_INTERVAL_MS)) ∧
    (∀ (env : HeartbeatEnv) (s : State),
      env.rtc_timestamp + cfg.APP_HEARTBEAT_OVERDUE_INTERVAL_MS < 2 ^ 64 →
      ((0 < broadcast_sends (heartbeat cfg env s).events ∧
          env.adv_send_status = RD_SUCCESS) ∨
        (gatt_sends (heartbeat cfg env s).events ≠ [] ∧
          env.gatt_send_status = RD_SUCCESS)) →
        app_heartbeat_overdue cfg env.rtc_timestamp (heartbeat cfg env s).state = false) := by
  have key : ∀ (rtc : Nat) (s : State),
      s.last_heartbeat_timestamp_ms + cfg.APP_HEARTBEAT_OVERDUE_INTERVAL_MS < 2 ^ 64 →
        (app_heartbeat_overdue cfg rtc s = true
          ↔ rtc > s.last_heartbeat_timestamp_ms + cfg.APP_HEARTBEAT_OVERDUE_INTERVAL_MS) := by
    intro rtc s h
    unfold app_heartbeat_overdue
    simp only [gt_iff_lt, decide_eq_true_eq]
    omega
  refine ⟨key, ?_⟩
  intro env s hrange hok
  have hts := heartbeat_timestamp_of_success cfg env s hok
  cases hov : app_heartbeat_overdue cfg env.rtc_timestamp (heartbeat cfg env s).state with
  | false => rfl
  | true =>
    have := (key env.rtc_timestamp (heartbeat cfg env s).state (by rw [hts]; exact hrange)).1 hov
    rw [hts] at this
    omega

/-- C11, worked example: an execution at reading 5000 whose advertisement
succeeds; the module is not overdue at 5000 nor at 20000, and is at 20001. -/
theorem overdue_iff_threshold_passed_witness :
    app_heartbeat_overdue example_cfg 5000
      (heartbeat example_cfg (example_hb 5000 0 8) boot_state).state = false ∧
    (app_heartbeat_overdue example_cfg 20001
        (heartbeat example_cfg (example_hb 5000 0 8) boot_state).state = true
      ↔ 20001 > (heartbeat example_cfg (example_hb 5000 0 8)
          boot_state).state.last_heartbeat_timestamp_ms
        + example_cfg.APP_HEARTBEAT_OVERDUE_INTERVAL_MS) :=
  ⟨(overdue_iff_threshold_passed example_cfg).2 (example_hb 5000 0 8) boot_state
      (by decide) (Or.inl ⟨by decide, by decide⟩),
   (overdue_iff_threshold_passed example_cfg).1 20001
      (heartbeat example_cfg (example_hb 5000 0 8) boot_state).state (by decide)⟩

/-- C12. If the timer driver or the scheduler queue is not initialised,
`app_heartbeat_init` returns exactly `RD_ERROR_INVALID_STATE`, makes no driver
call (no timer create, no timer start), and leaves both intervals at
`APP_HEARTBEAT_INTERVAL_MS`, `timer_running` false, and `last_hb_ms` and
`heartbeat_gatt_live_until` at the clock readings of lines 213 and 216 (equal to
`now` when both readings are `now < 2^63`); the timer handle is untouched. -/
theorem init_without_drivers (cfg : Config) (env : InitEnv) (s : State)
    (h : env.timer_is_init = false ∨ env.scheduler_is_init = false) :
    (app_heartbeat_init cfg env s).ret = some cfg.RD_ERROR_INVALID_STATE ∧
    (app_heartbeat_init cfg env s).events = [] ∧
    (app_heartbeat_init cfg env s).state.heartbeat_interval_ms
      = cfg.APP_HEARTBEAT_INTERVAL_MS ∧
    (app_heartbeat_init cfg env s).state.heartbeat_gatt_interval_dynamic_ms
      = cfg.APP_HEARTBEAT_INTERVAL_MS ∧
    (app_heartbeat_init cfg env s).state.timer_running = false ∧
    (app_heartbeat_init cfg env s).state.last_hb_ms = i64_of_u64 env.rtc_last_hb ∧
    (app_heartbeat_init cfg env s).state.heartbeat_gatt_live_until
      = i64_of_u64 env.rtc_live_until ∧
    (∀ now : Nat, now < 2 ^ 63 → env.rtc_last_hb = now → env.rtc_live_until = now →
      (app_heartbeat_init cfg env s).state.last_hb_ms = (now : Int) ∧
      (app_heartbeat_init cfg env s).state.heartbeat_gatt_live_until = (now : Int)) ∧
    (app_heartbeat_init cfg env s).state.heart_timer = s.heart_timer := by
  have hcond : ((!env.timer_is_init) || (!env.scheduler_is_init)) = true := by
    rcases h with h | h <;> simp [h]
  have hret : (app_heartbeat_init cfg env s).ret = some cfg.RD_ERROR_INVALID_STATE := by
    simp [app_heartbeat_init, hcond, RD_SUCCESS]
  have hst : (app_heartbeat_init cfg env s).state.last_hb_ms = i64_of_u64 env.rtc_last_hb ∧
      (app_heartbeat_init cfg env s).state.heartbeat_gatt_live_until
        = i64_of_u64 env.rtc_live_until := by
    simp [app_heartbeat_init, hcond]
  refine ⟨hret, ?_, ?_, ?_, ?_, hst.1, hst.2, ?_, ?_⟩
  · simp [app_heartbeat_init, hcond]
  · simp [app_heartbeat_init, hcond]
  · simp [app_heartbeat_init, hcond]
  · simp [app_heartbeat_init, hcond]
  · intro now hnow h1 h2
    rw [hst.1, hst.2, h1, h2, i64_of_u64_eq _ hnow]
    exact ⟨rfl, rfl⟩
  · simp [app_heartbeat_init, hcond]

/-- C12, worked example: init at reading 1000 with the timer driver not
initialised. -/
theorem init_without_drivers_witness :
    (app_heartbeat_init example_cfg (example_init_no_timer 1000) boot_state).ret
      = some example_cfg.RD_ERROR_INVALID_STATE ∧
    (app_heartbeat_init example_cfg (example_init_no_timer 1000) boot_state).events = [] ∧
    (app_heartbeat_init example_cfg (example_init_no_timer 1000)
      boot_state).state.heartbeat_gatt_live_until = 1000 :=
  ⟨(init_without_drivers example_cfg (example_init_no_timer 1000) boot_state
      (Or.inl (by decide))).1,
   (init_without_drivers example_cfg (example_init_no_timer 1000) boot_state
      (Or.inl (by decide))).2.1,
   ((init_without_drivers example_cfg (example_init_no_timer 1000) boot_state
      (Or.inl (by decide))).2.2.2.2.2.2.2.1 1000 (by decide) rfl rfl).2⟩

/-- C13. When the timer driver and the scheduler queue are initialised,
`app_heartbeat_init` calls `ri_timer_create` and returns its status, OR-ed with
the status of `ri_timer_start` if and only if the create succeeded;
`timer_running` is true afterwards exactly when the create succeeded, whatever
the start returned, and the start call is made on the created timer with
`APP_HEARTBEAT_INTERVAL_MS`, the value of `heartbeat_interval_ms`. -/
theorem init_with_drivers (cfg : Config) (env : InitEnv) (s : State)
    (ht : env.timer_is_init = true) (hs : env.scheduler_is_init = true) :
    (app_heartbeat_init cfg env s).ret
      = some (if env.timer_create_status = RD_SUCCESS then
          env.timer_create_status ||| env.timer_start_status
        else env.timer_create_status) ∧
    ((app_heartbeat_init cfg env s).state.timer_running = true
      ↔ env.timer_create_status = RD_SUCCESS) ∧
    (app_heartbeat_init cfg env s).events
      = (if env.timer_create_status = RD_SUCCESS then
          [Event.timer_create,
            Event.timer_start env.timer_create_handle cfg.APP_HEARTBEAT_INTERVAL_MS]
        else [Event.timer_create]) ∧
    (app_heartbeat_init cfg env s).state.heartbeat_interval_ms
      = cfg.APP_HEARTBEAT_INTERVAL_MS ∧
    (app_heartbeat_init cfg env s).state.heart_timer = env.timer_create_handle := by
  by_cases hc : env.timer_create_status = RD_SUCCESS
  · have hc0 : env.timer_create_status = 0 := hc
    simp [app_heartbeat_init, ht, hs, hc0, RD_SUCCESS]
  · have hc0 : ¬ env.timer_create_status = 0 := hc
    have hc1 : ¬ 0 = env.timer_create_status := fun h => hc0 h.symm
    simp [app_heartbeat_init, ht, hs, hc0, hc1, RD_SUCCESS]

/-- C13, worked example: the create succeeds and the start fails with status 32;
init returns 32 and `timer_running` is true all the same. -/
theorem init_with_drivers_witness :
    (app_heartbeat_init example_cfg (example_init_start_fails 1000) boot_state).ret = some 32 ∧
    (app_heartbeat_init example_cfg (example_init_start_fails 1000)
      boot_state).state.timer_running = true :=
  ⟨(init_with_drivers example_cfg (example_init_start_fails 1000) boot_state (by decide) (by decide)).1,
   (init_with_drivers example_cfg (example_init_start_fails 1000) boot_state
      (by decide) (by decide)).2.1.2 (by decide)⟩


/-- C14, counterexample: the claim has `app_heartbeat_start` return
`RD_ERROR_INVALID_STATE` only when the timer was never created.  After a
successful init the handle is not `NULL`; a start whose `ri_timer_start` reports
`RD_ERROR_INVALID_STATE` executes the pipeline once and returns
`RD_ERROR_INVALID_STATE`. -/
theorem start_invalid_state_counterexample :
    (app_heartbeat_init example_cfg (example_init 1000) boot_state).state.heart_timer
      ≠ none ∧
    (example_start 1000 example_cfg.RD_ERROR_INVALID_STATE).timer_start_status
      = example_cfg.RD_ERROR_INVALID_STATE ∧
    pipeline_executions (app_heartbeat_start example_cfg
      (example_start 1000 example_cfg.RD_ERROR_INVALID_STATE)
      (app_heartbeat_init example_cfg (example_init 1000) boot_state).state).events = 1 ∧
    (app_heartbeat_start example_cfg
      (example_start 1000 example_cfg.RD_ERROR_INVALID_STATE)
      (app_heartbeat_init example_cfg (example_init 1000) boot_state).state).ret
      = some example_cfg.RD_ERROR_INVALID_STATE := by
  decide

/-- C14, amended. `app_heartbeat_start` returns `RD_ERROR_INVALID_STATE` whenever
the timer was never created (handle `NULL`), and in that case executes no
pipeline, makes no driver call and leaves the state unchanged.  Otherwise it
executes the pipeline exactly once and, when that execution returns, starts the
timer at `heartbeat_interval_ms` and returns the status of `ri_timer_start`,
whatever it is, `RD_ERROR_INVALID_STATE` included; when the execution is stopped
by the fatal-error handler, nothing follows it. -/
theorem start_effect (cfg : Config) (env : StartEnv) (s : State) :
    (s.heart_timer = none →
      (app_heartbeat_start cfg env s).ret = some cfg.RD_ERROR_INVALID_STATE ∧
      (app_heartbeat_start cfg env s).events = [] ∧
      (app_heartbeat_start cfg env s).state = s) ∧
    (s.heart_timer ≠ none →
      pipeline_executions (app_heartbeat_start cfg env s).events = 1 ∧
      (app_heartbeat_start cfg env s).state = (heartbeat cfg env.hb s).state ∧
      ((heartbeat cfg env.hb s).ret = some () →
        (app_heartbeat_start cfg env s).events
          = (heartbeat cfg env.hb s).events
            ++ [Event.timer_start s.heart_timer s.heartbeat_interval_ms] ∧
        timer_starts (app_heartbeat_start cfg env s).events = 1 ∧
        (app_heartbeat_start cfg env s).ret = some env.timer_start_status) ∧
      ((heartbeat cfg env.hb s).ret = none →
        (app_heartbeat_start cfg env s).events = (heartbeat cfg env.hb s).events ∧
        (app_heartbeat_start cfg env s).ret = none)) := by
  constructor
  · intro h
    simp [app_heartbeat_start, h, RD_SUCCESS]
  · intro h
    have hframe := heartbeat_frame cfg env.hb s
    have honce := heartbeat_executes_once cfg env.hb s
    have hnostart := heartbeat_no_timer_start cfg env.hb s
    cases hret : (heartbeat cfg env.hb s).ret with
    | none =>
      have hev : (app_heartbeat_start cfg env s).events = (heartbeat cfg env.hb s).events := by
        simp [app_heartbeat_start, h, hret]
      have hst : (app_heartbeat_start cfg env s).state = (heartbeat cfg env.hb s).state := by
        simp [app_heartbeat_start, h, hret]
      have hr : (app_heartbeat_start cfg env s).ret = none := by
        simp [app_heartbeat_start, h, hret]
      refine ⟨by rw [hev]; exact honce, hst, fun hc => ?_, fun _ => ⟨hev, hr⟩⟩
      simp at hc
    | some u =>
      have hev : (app_heartbeat_start cfg env s).events
          = (heartbeat cfg env.hb s).events
            ++ [Event.timer_start s.heart_timer s.heartbeat_interval_ms] := by
        simp [app_heartbeat_start, h, hret, hframe.2.2.2.2.1, hframe.2.2.1]
      have hst : (app_heartbeat_start cfg env s).state = (heartbeat cfg env.hb s).state := by
        simp [app_heartbeat_start, h, hret]
      have hr : (app_heartbeat_start cfg env s).ret = some env.timer_start_status := by
        simp [app_heartbeat_start, h, hret, RD_SUCCESS]
      refine ⟨?_, hst, fun _ => ⟨hev, ?_, hr⟩, fun hc => ?_⟩
      · rw [hev]
        unfold pipeline_executions at honce ⊢
        simp [List.countP_append, honce, Event.is_sensor_get]
      · rw [hev]
        unfold timer_starts at hnostart ⊢
        simp [List.countP_append, hnostart, Event.is_timer_start]
      · simp at hc

/-- C14 amended, worked example: `app_heartbeat_start` on the boot state (no
timer) and on the state left by a successful init. -/
theorem start_effect_witness :
    (app_heartbeat_start example_cfg (example_start 1000 0) boot_state).ret
      = some example_cfg.RD_ERROR_INVALID_STATE ∧
    pipeline_executions (app_heartbeat_start example_cfg (example_start 1000 0)
      (app_heartbeat_init example_cfg (example_init 1000) boot_state).state).events = 1 ∧
    (app_heartbeat_start example_cfg (example_start 1000 0)
      (app_heartbeat_init example_cfg (example_init 1000) boot_state).state).ret = some 0 :=
  ⟨((start_effect example_cfg (example_start 1000 0) boot_state).1 (by decide)).1,
   ((start_effect example_cfg (example_start 1000 0)
      (app_heartbeat_init example_cfg (example_init 1000) boot_state).state).2
      (by decide)).1,
   (((start_effect example_cfg (example_start 1000 0)
      (app_heartbeat_init example_cfg (example_init 1000) boot_state).state).2
      (by decide)).2.2.1 (by decide)).2.2⟩

/-- C15. `app_heartbeat_stop` only stops the periodic timer: its one driver call
is `ri_timer_stop` (none when the handle is `NULL`) and every static variable is
unchanged, `heartbeat_gatt_live_until`, `heartbeat_gatt_interval_dynamic_ms`,
`timer_running`, `last_hb_ms`, `last_heartbeat_timestamp_ms` and
`m_dataformat_state` among them.  So a tick after the stop behaves exactly as the
same tick without the stop, and with the live window open it still returns false
(or is stopped by the fatal-error handler in the pipeline it runs). -/
theorem stop_only_stops_timer (cfg : Config) (timer_stop_status : Nat) (s : State) :
    (app_heartbeat_stop cfg timer_stop_status s).state = s ∧
    (app_heartbeat_stop cfg timer_stop_status s).events
      = (if s.heart_timer = none then [] else [Event.timer_stop s.heart_timer]) ∧
    pipeline_executions (app_heartbeat_stop cfg timer_stop_status s).events = 0 ∧
    (∀ env : ShouldSleepEnv,
      app_heartbeat_should_sleep cfg env (app_heartbeat_stop cfg timer_stop_status s).state
        = app_heartbeat_should_sleep cfg env s) ∧
    (∀ env : ShouldSleepEnv,
      s.heartbeat_gatt_live_until < 2 ^ 64 →
      (env.rtc_live : Int) < s.heartbeat_gatt_live_until →
        ((app_heartbeat_should_sleep cfg env
            (app_heartbeat_stop cfg timer_stop_status s).state).ret = some false ∨
          (app_heartbeat_should_sleep cfg env
            (app_heartbeat_stop cfg timer_stop_status s).state).stopped_by_fatal_handler
            = true) ∧
        (env.hb.fatal_handler_returns = true ∨
            (env.hb.adv_send_status &&& cfg.RD_ERROR_FATAL = 0 ∧
              env.hb.gatt_send_status &&& cfg.RD_ERROR_FATAL = 0) →
          (app_heartbeat_should_sleep cfg env
            (app_heartbeat_stop cfg timer_stop_status s).state).ret = some false)) := by
  have hstate : (app_heartbeat_stop cfg timer_stop_status s).state = s := by
    unfold app_heartbeat_stop
    split_ifs <;> rfl
  refine ⟨hstate, ?_, ?_, ?_, ?_⟩
  · unfold app_heartbeat_stop
    split_ifs <;> rfl
  · unfold app_heartbeat_stop pipeline_executions
    split_ifs <;> simp [Event.is_sensor_get]
  · intro env
    rw [hstate]
  · intro env hs hlive
    rw [hstate]
    apply should_sleep_open
    have := u64_of_i64_eq s.heartbeat_gatt_live_until (by omega) hs
    omega

/-- C15, worked example: init at 1000, `set_gatt_interval (500)` at 2000, then a
stop; the tick at 2100 still returns false. -/
theorem stop_only_stops_timer_witness :
    (app_heartbeat_should_sleep example_cfg (example_tick 2100)
      (app_heartbeat_stop example_cfg 0
        (app_heartbeat_set_gatt_interval_ms 2000 500
          (app_heartbeat_init example_cfg (example_init 1000)
            boot_state).state).state).state).ret = some false :=
  ((stop_only_stops_timer example_cfg 0
      (app_heartbeat_set_gatt_interval_ms 2000 500
        (app_heartbeat_init example_cfg (example_init 1000) boot_state).state).state).2.2.2.2
    (example_tick 2100) (by decide) (by decide)).2 (Or.inl (by decide))

/-- C19. Whenever `app_heartbeat_should_sleep` returns true it has not executed
the pipeline: its driver calls are none at all, or the one `ri_timer_start` at
`heartbeat_interval_ms` when `timer_running` was false (so no sensor read, no
send, no watchdog feed), and every static variable is unchanged except
`timer_running`, which is true afterwards. -/
theorem should_sleep_true_runs_nothing (cfg : Config) (env : ShouldSleepEnv) (s : State)
    (h : (app_heartbeat_should_sleep cfg env s).ret = some true) :
    (app_heartbeat_should_sleep cfg env s).events
      = (if s.timer_running = false then
          [Event.timer_start s.heart_timer s.heartbeat_interval_ms]
        else []) ∧
    pipeline_executions (app_heartbeat_should_sleep cfg env s).events = 0 ∧
    broadcast_sends (app_heartbeat_should_sleep cfg env s).events = 0 ∧
    send_adv_calls (app_heartbeat_should_sleep cfg env s).events = 0 ∧
    gatt_sends (app_heartbeat_should_sleep cfg env s).events = [] ∧
    watchdog_feeds (app_heartbeat_should_sleep cfg env s).events = 0 ∧
    (app_heartbeat_should_sleep cfg env s).state = { s with timer_running := true } ∧
    (app_heartbeat_should_sleep cfg env s).state.last_hb_ms = s.last_hb_ms ∧
    (app_heartbeat_should_sleep cfg env s).state.last_heartbeat_timestamp_ms
      = s.last_heartbeat_timestamp_ms ∧
    (app_heartbeat_should_sleep cfg env s).state.last_led_flash_ms = s.last_led_flash_ms ∧
    (app_heartbeat_should_sleep cfg env s).state.m_dataformat_state
      = s.m_dataformat_state ∧
    (app_heartbeat_should_sleep cfg env s).state.heartbeat_gatt_interval_dynamic_ms
      = s.heartbeat_gatt_interval_dynamic_ms ∧
    (app_heartbeat_should_sleep cfg env s).state.heartbeat_gatt_live_until
      = s.heartbeat_gatt_live_until ∧
    (app_heartbeat_should_sleep cfg env s).state.timer_running = true := by
  unfold app_heartbeat_should_sleep at h ⊢
  by_cases h1 : u64_of_i64 s.heartbeat_gatt_live_until < env.rtc_live
  · simp only [if_pos h1]
    cases htr : s.timer_running
    · simp [pipeline_executions, broadcast_sends, send_adv_calls, gatt_sends,
        watchdog_feeds, Event.is_sensor_get, Event.is_adv_send, Event.is_send_adv_call,
        Event.is_watchdog_feed]
    · have hs : ({ s with timer_running := true } : State) = s := by
        cases s
        simp_all
      simp [hs, htr, pipeline_executions, broadcast_sends, send_adv_calls, gatt_sends,
        watchdog_feeds]
  · rw [if_neg h1] at h
    by_cases h2 : u64_of_i64 (add_i64 s.last_hb_ms (s.heartbeat_gatt_interval_dynamic_ms : Int))
        < env.rtc_due
    · rw [if_pos h2] at h
      cases hret : (heartbeat cfg env.hb s).ret <;> simp [hret] at h
    · rw [if_neg h2] at h
      simp at h

/-- C19, worked example: after a successful init at 1000 the tick at 1001 returns
true with no driver call. -/
theorem should_sleep_true_runs_nothing_witness :
    (app_heartbeat_should_sleep example_cfg (example_tick 1001)
      (app_heartbeat_init example_cfg (example_init 1000) boot_state).state).events = [] ∧
    pipeline_executions (app_heartbeat_should_sleep example_cfg (example_tick 1001)
      (app_heartbeat_init example_cfg (example_init 1000) boot_state).state).events = 0 :=
  ⟨(should_sleep_true_runs_nothing example_cfg (example_tick 1001)
      (app_heartbeat_init example_cfg (example_init 1000) boot_state).state
      (by decide)).1,
   (should_sleep_true_runs_nothing example_cfg (example_tick 1001)
      (app_heartbeat_init example_cfg (example_init 1000) boot_state).state
      (by decide)).2.1⟩


/-- In a pipeline execution that made the broadcast send, the status of that
send goes through the error check of line 125, and on to the fatal-error handler
when it carries the fatal bit. -/
theorem heartbeat_checks_adv_status (cfg : Config) (env : HeartbeatEnv) (s : State)
    (h : 0 < broadcast_sends (heartbeat cfg env s).events) :
    Event.error_check env.adv_send_status (not_u32 cfg.RD_ERROR_FATAL)
      ∈ (heartbeat cfg env s).events ∧
    (env.adv_send_status &&& cfg.RD_ERROR_FATAL ≠ 0 →
      Event.fatal_handler env.adv_send_status ∈ (heartbeat cfg env s).events) := by
  revert h
  unfold heartbeat heartbeat_gatt heartbeat_finish broadcast_sends
  simp only [error_check_events, error_check_passes, send_adv_events, send_adv_status,
    not_u32_not_u32]
  split_ifs <;> simp_all [List.countP_cons, Event.is_adv_send]

/-- In a pipeline execution that made the connection-oriented send, the status
of that send goes through the error check of line 182, and on to the fatal-error
handler when it carries the fatal bit. -/
theorem heartbeat_checks_gatt_status (cfg : Config) (env : HeartbeatEnv) (s : State)
    (h : gatt_sends (heartbeat cfg env s).events ≠ []) :
    Event.error_check env.gatt_send_status (not_u32 cfg.RD_ERROR_FATAL)
      ∈ (heartbeat cfg env s).events ∧
    (env.gatt_send_status &&& cfg.RD_ERROR_FATAL ≠ 0 →
      Event.fatal_handler env.gatt_send_status ∈ (heartbeat cfg env s).events) := by
  revert h
  unfold heartbeat heartbeat_gatt heartbeat_finish gatt_sends
  simp only [error_check_events, error_check_passes, send_adv_events, send_adv_status,
    not_u32_not_u32]
  split_ifs <;> simp_all

/-- In a pipeline execution the fatal-error handler is only invoked with a status
that carries the fatal bit. -/
theorem heartbeat_handler_only_on_fatal (cfg : Config) (env : HeartbeatEnv) (s : State)
    (error : Nat) (h : Event.fatal_handler error ∈ (heartbeat cfg env s).events) :
    error &&& cfg.RD_ERROR_FATAL ≠ 0 := by
  revert h
  unfold heartbeat heartbeat_gatt heartbeat_finish
  simp only [error_check_events, error_check_passes, send_adv_events, send_adv_status,
    not_u32_not_u32]
  split_ifs <;> simp <;>
    (rintro (rfl | rfl) <;> assumption)

/-- Every error check of a pipeline execution uses the mask `~RD_ERROR_FATAL`. -/
theorem heartbeat_check_mask (cfg : Config) (env : HeartbeatEnv) (s : State)
    (error mask : Nat) (h : Event.error_check error mask ∈ (heartbeat cfg env s).events) :
    mask = not_u32 cfg.RD_ERROR_FATAL := by
  revert h
  unfold heartbeat heartbeat_gatt heartbeat_finish
  simp only [error_check_events, error_check_passes, send_adv_events, send_adv_status,
    not_u32_not_u32]
  split_ifs <;> simp <;>
    (rintro (⟨_, hm⟩ | ⟨_, hm⟩) <;> exact hm)

/-- C18. A fatal bit is never swallowed.  In every pipeline execution, the
status of a broadcast send that was made, and the status of the
connection-oriented send when it was made, is handed to `RD_ERROR_CHECK` with the
mask `~RD_ERROR_FATAL`, and when it carries the `RD_ERROR_FATAL` bit the
fatal-error handler is invoked with it.  Conversely every error check of the
execution uses that mask, and the handler is only ever invoked with a status
that carries the fatal bit. -/
theorem heartbeat_fatal_bit_reaches_handler (cfg : Config) (env : HeartbeatEnv) (s : State) :
    (0 < broadcast_sends (heartbeat cfg env s).events →
      Event.error_check env.adv_send_status (not_u32 cfg.RD_ERROR_FATAL)
        ∈ (heartbeat cfg env s).events ∧
      (env.adv_send_status &&& cfg.RD_ERROR_FATAL ≠ 0 →
        Event.fatal_handler env.adv_send_status ∈ (heartbeat cfg env s).events)) ∧
    (gatt_sends (heartbeat cfg env s).events ≠ [] →
      Event.error_check env.gatt_send_status (not_u32 cfg.RD_ERROR_FATAL)
        ∈ (heartbeat cfg env s).events ∧
      (env.gatt_send_status &&& cfg.RD_ERROR_FATAL ≠ 0 →
        Event.fatal_handler env.gatt_send_status ∈ (heartbeat cfg env s).events)) ∧
    (∀ error : Nat, Event.fatal_handler error ∈ (heartbeat cfg env s).events →
      error &&& cfg.RD_ERROR_FATAL ≠ 0) ∧
    (∀ error mask : Nat, Event.error_check error mask ∈ (heartbeat cfg env s).events →
      mask = not_u32 cfg.RD_ERROR_FATAL) :=
  ⟨heartbeat_checks_adv_status cfg env s, heartbeat_checks_gatt_status cfg env s,
    heartbeat_handler_only_on_fatal cfg env s, heartbeat_check_mask cfg env s⟩

/-- C18, worked example: the advertisement returns a status with the fatal bit
(bit 31) and the handler gives control back; the handler is invoked with that
status, and not with the non-fatal status 8 of the GATT send. -/
theorem heartbeat_fatal_bit_reaches_handler_witness :
    Event.fatal_handler 2147483652
      ∈ (heartbeat example_cfg (example_hb 5000 2147483652 8) boot_state).events ∧
    ¬ Event.fatal_handler 8
      ∈ (heartbeat example_cfg (example_hb 5000 2147483652 8) boot_state).events :=
  ⟨((heartbeat_fatal_bit_reaches_handler example_cfg (example_hb 5000 2147483652 8)
      boot_state).1 (by decide)).2 (by decide),
   fun h => (heartbeat_fatal_bit_reaches_handler example_cfg (example_hb 5000 2147483652 8)
      boot_state).2.2.1 8 h (by decide)⟩

/-- C20. `app_heartbeat_init` stores its clock reading of line 215 in
`last_led_flash_ms`.  With that reading plus 1950 representable as `int64_t`,
every pipeline execution of a run that follows the init and whose reading of
line 120 is at most 1950 ms after it enters no broadcast block (`send_adv` does
not run, no broadcast send) and still makes its one connection-oriented send of
18 bytes; so does the execution made by `app_heartbeat_start` right after the
init. -/
theorem no_broadcast_within_1950_of_init (cfg : Config) (ienv : InitEnv) (s : State)
    (hrange : ienv.rtc_led_flash + 1950 < 2 ^ 63) :
    (app_heartbeat_init cfg ienv s).state.last_led_flash_ms = (ienv.rtc_led_flash : Int) ∧
    (∀ envs : List HeartbeatEnv,
      (∀ env ∈ envs, env.rtc_rate_limit ≤ ienv.rtc_led_flash + 1950) →
      ∀ p ∈ heartbeat_runs cfg (app_heartbeat_init cfg ienv s).state envs,
        send_adv_calls p.2.events = 0 ∧
        broadcast_sends p.2.events = 0 ∧
        gatt_sends p.2.events
          = [{ data := p.1.encoded_data, data_length := 18, repeat_count := 1 }]) ∧
    (∀ env : StartEnv,
      env.hb.rtc_rate_limit ≤ ienv.rtc_led_flash + 1950 →
      (app_heartbeat_init cfg ienv s).state.heart_timer ≠ none →
        send_adv_calls (app_heartbeat_start cfg env
          (app_heartbeat_init cfg ienv s).state).events = 0 ∧
        broadcast_sends (app_heartbeat_start cfg env
          (app_heartbeat_init cfg ienv s).state).events = 0 ∧
        gatt_sends (app_heartbeat_start cfg env
          (app_heartbeat_init cfg ienv s).state).events
          = [{ data := env.hb.encoded_data, data_length := 18, repeat_count := 1 }]) := by
  have hled : (app_heartbeat_init cfg ienv s).state.last_led_flash_ms
      = (ienv.rtc_led_flash : Int) := by
    unfold app_heartbeat_init
    dsimp only
    split_ifs <;> exact i64_of_u64_eq _ (by omega)
  have hone : ∀ (env : HeartbeatEnv) (st : State),
      st.last_led_flash_ms = (ienv.rtc_led_flash : Int) →
      env.rtc_rate_limit ≤ ienv.rtc_led_flash + 1950 →
        send_adv_calls (heartbeat cfg env st).events = 0 ∧
        broadcast_sends (heartbeat cfg env st).events = 0 ∧
        gatt_sends (heartbeat cfg env st).events
          = [{ data := env.encoded_data, data_length := 18, repeat_count := 1 }] ∧
        (heartbeat cfg env st).state.last_led_flash_ms = (ienv.rtc_led_flash : Int) := by
    intro env st hst hearly
    have hsum := u64_of_add_i64 st.last_led_flash_ms 1950 (by omega) (by omega)
    have hlim : ¬ u64_of_i64 (add_i64 st.last_led_flash_ms 1950) < env.rtc_rate_limit := by
      omega
    have hb := (heartbeat_broadcast_block cfg env st).2 hlim
    exact ⟨hb.1, hb.2.2, heartbeat_gatt_send_when_limited cfg env st hlim, by rw [hb.2.1, hst]⟩
  refine ⟨hled, ?_, ?_⟩
  · intro envs
    generalize (app_heartbeat_init cfg ienv s).state = st at hled
    induction envs generalizing st with
    | nil => intro _ p hp; simp [heartbeat_runs] at hp
    | cons env envs ih =>
      intro hearly p hp
      have h1 := hone env st hled (hearly env (List.mem_cons_self _ _))
      simp only [heartbeat_runs, List.mem_cons] at hp
      rcases hp with rfl | hp
      · exact ⟨h1.1, h1.2.1, h1.2.2.1⟩
      · cases hret : (heartbeat cfg env st).ret with
        | none => simp [hret] at hp
        | some u =>
          simp only [hret] at hp
          exact ih (heartbeat cfg env st).state h1.2.2.2
            (fun e he => hearly e (List.mem_cons_of_mem _ he)) p hp
  · intro env hearly hcreated
    have h1 := hone env.hb (app_heartbeat_init cfg ienv s).state hled hearly
    cases hret : (heartbeat cfg env.hb (app_heartbeat_init cfg ienv s).state).ret with
    | none =>
      have hev : (app_heartbeat_start cfg env (app_heartbeat_init cfg ienv s).state).events
          = (heartbeat cfg env.hb (app_heartbeat_init cfg ienv s).state).events := by
        simp [app_heartbeat_start, hcreated, hret]
      rw [hev]
      exact ⟨h1.1, h1.2.1, h1.2.2.1⟩
    | some u =>
      have hev : (app_heartbeat_start cfg env (app_heartbeat_init cfg ienv s).state).events
          = (heartbeat cfg env.hb (app_heartbeat_init cfg ienv s).state).events
            ++ [Event.timer_start
                (heartbeat cfg env.hb (app_heartbeat_init cfg ienv s).state).state.heart_timer
                (heartbeat cfg env.hb
                  (app_heartbeat_init cfg ienv s).state).state.heartbeat_interval_ms] := by
        simp [app_heartbeat_start, hcreated, hret]
      rw [hev]
      have ha := h1.1
      have hb := h1.2.1
      have hc := h1.2.2.1
      unfold send_adv_calls at ha ⊢
      unfold broadcast_sends at hb ⊢
      unfold gatt_sends at hc ⊢
      simp [List.countP_append, List.filterMap_append, ha, hb, hc,
        Event.is_send_adv_call, Event.is_adv_send]

/-- C20, worked example: init at 1000, then `app_heartbeat_start` in the same
millisecond and an execution at 2950; neither broadcasts. -/
theorem no_broadcast_within_1950_of_init_witness :
    broadcast_sends (app_heartbeat_start example_cfg (example_start 1000 0)
      (app_heartbeat_init example_cfg (example_init 1000) boot_state).state).events = 0 ∧
    (∀ p ∈ heartbeat_runs example_cfg
        (app_heartbeat_init example_cfg (example_init 1000) boot_state).state
        [example_hb 2950 0 0],
      broadcast_sends p.2.events = 0) :=
  ⟨(((no_broadcast_within_1950_of_init example_cfg (example_init 1000) boot_state
      (by decide)).2.2 (example_start 1000 0) (by decide) (by decide))).2.1,
   fun p hp => (((no_broadcast_within_1950_of_init example_cfg (example_init 1000) boot_state
      (by decide)).2.1 [example_hb 2950 0 0] (by decide)) p hp).2.1⟩


/-! ## Facts on runs of ticks -/

/-- One tick, by what the test of line 238 finds.  Expired window: true is
returned, `timer_running` is true afterwards and the timer is started exactly
when `timer_running` was false.  Window not expired: no timer start, true is not
returned and `timer_running` is unchanged.  In both cases the deadline, the timer
handle and the base interval are unchanged. -/
theorem should_sleep_step (cfg : Config) (env : ShouldSleepEnv) (s : State) :
    (window_expired s env = true →
      (app_heartbeat_should_sleep cfg env s).ret = some true ∧
      (app_heartbeat_should_sleep cfg env s).state.timer_running = true ∧
      (app_heartbeat_should_sleep cfg env s).events
        = (if s.timer_running = false then
            [Event.timer_start s.heart_timer s.heartbeat_interval_ms]
          else [])) ∧
    (window_expired s env = false →
      (app_heartbeat_should_sleep cfg env s).ret ≠ some true ∧
      (app_heartbeat_should_sleep cfg env s).state.timer_running = s.timer_running ∧
      timer_starts (app_heartbeat_should_sleep cfg env s).events = 0) ∧
    (app_heartbeat_should_sleep cfg env s).state.heartbeat_gatt_live_until
      = s.heartbeat_gatt_live_until ∧
    (app_heartbeat_should_sleep cfg env s).state.heart_timer = s.heart_timer ∧
    (app_heartbeat_should_sleep cfg env s).state.heartbeat_interval_ms
      = s.heartbeat_interval_ms := by
  have hframe := heartbeat_frame cfg env.hb s
  have hnostart := heartbeat_no_timer_start cfg env.hb s
  unfold window_expired
  by_cases h1 : u64_of_i64 s.heartbeat_gatt_live_until < env.rtc_live
  · cases htr : s.timer_running <;>
      simp [app_heartbeat_should_sleep, h1, htr]
  · by_cases h2 : u64_of_i64
        (add_i64 s.last_hb_ms (s.heartbeat_gatt_interval_dynamic_ms : Int)) < env.rtc_due
    · simp only [app_heartbeat_should_sleep, if_neg h1, if_pos h2]
      refine ⟨fun hc => ?_, fun _ => ⟨?_, hframe.2.2.2.1, hnostart⟩,
        hframe.1, hframe.2.2.2.2.1, hframe.2.2.1⟩
      · simp [h1] at hc
      · cases (heartbeat cfg env.hb s).ret <;> simp
    · simp [app_heartbeat_should_sleep, h1, h2, timer_starts]

/-- Once `timer_running` is true, no tick of a run starts the timer. -/
theorem should_sleep_ticks_armed (cfg : Config) (envs : List ShouldSleepEnv) :
    ∀ s : State, s.timer_running = true →
      ∀ r ∈ should_sleep_ticks cfg s envs, timer_starts r.events = 0 := by
  induction envs with
  | nil => intro s _ r hr; simp [should_sleep_ticks] at hr
  | cons env envs ih =>
    intro s hs r hr
    have hstep := should_sleep_step cfg env s
    have hhead : timer_starts (app_heartbeat_should_sleep cfg env s).events = 0 ∧
        (app_heartbeat_should_sleep cfg env s).state.timer_running = true := by
      cases hexp : window_expired s env
      · have h := hstep.2.1 hexp
        exact ⟨h.2.2, by rw [h.2.1, hs]⟩
      · have h := hstep.1 hexp
        refine ⟨?_, h.2.1⟩
        rw [h.2.2]
        simp [hs, timer_starts]
    simp only [should_sleep_ticks, List.mem_cons] at hr
    rcases hr with rfl | hr
    · exact hhead.1
    · cases hret : (app_heartbeat_should_sleep cfg env s).ret with
      | none => simp [hret] at hr
      | some b =>
        simp only [hret] at hr
        exact ih _ hhead.2 r hr

/-- A run of ticks started with `timer_running` false: the tick that first
finds the window expired starts the timer, on the heartbeat timer at the base
interval, and no other tick of the run starts it. -/
theorem should_sleep_ticks_rearm (cfg : Config) (env : ShouldSleepEnv)
    (post : List ShouldSleepEnv) (pre : List ShouldSleepEnv) :
    ∀ s : State, s.timer_running = false →
      (∀ e ∈ pre, window_expired s e = false) → window_expired s env = true →
      ∀ (i : Nat) (r : Result Bool),
        (should_sleep_ticks cfg s (pre ++ env :: post))[i]? = some r →
          timer_starts r.events = (if i = pre.length then 1 else 0) ∧
          (i = pre.length →
            r.events = [Event.timer_start s.heart_timer s.heartbeat_interval_ms]) := by
  induction pre with
  | nil =>
    intro s hs _ hexp i r hr
    have hstep := (should_sleep_step cfg env s).1 hexp
    simp only [List.nil_append, should_sleep_ticks, hstep.1] at hr
    cases i with
    | zero =>
      simp only [List.getElem?_cons_zero, Option.some.injEq] at hr
      subst hr
      rw [hstep.2.2]
      simp [hs, timer_starts, Event.is_timer_start]
    | succ k =>
      simp only [List.getElem?_cons_succ] at hr
      have hmem : r ∈ should_sleep_ticks cfg (app_heartbeat_should_sleep cfg env s).state post :=
        List.getElem?_mem hr
      have := should_sleep_ticks_armed cfg post _ hstep.2.1 r hmem
      simp [this]
  | cons e pre ih =>
    intro s hs hopen hexp i r hr
    have hstep := should_sleep_step cfg e s
    have hhead := hstep.2.1 (hopen e (List.mem_cons_self _ _))
    have hexp_eq : ∀ x : ShouldSleepEnv,
        window_expired (app_heartbeat_should_sleep cfg e s).state x = window_expired s x := by
      intro x
      unfold window_expired
      rw [hstep.2.2.1]
    simp only [List.cons_append, should_sleep_ticks] at hr
    cases i with
    | zero =>
      simp only [List.getElem?_cons_zero, Option.some.injEq] at hr
      subst hr
      simp [hhead.2.2]
    | succ k =>
      simp only [List.getElem?_cons_succ] at hr
      cases hret : (app_heartbeat_should_sleep cfg e s).ret with
      | none => simp [hret] at hr
      | some b =>
        simp only [hret] at hr
        have := ih (app_heartbeat_should_sleep cfg e s).state (by rw [hhead.2.1, hs])
          (fun x hx => by rw [hexp_eq]; exact hopen x (List.mem_cons_of_mem _ hx))
          (by rw [hexp_eq]; exact hexp) k r hr
        rw [hstep.2.2.2.1, hstep.2.2.2.2] at this
        simpa using this

/-- In a run of ticks, every tick that returns true leaves `timer_running`
true. -/
theorem should_sleep_ticks_true_armed (cfg : Config) (envs : List ShouldSleepEnv) :
    ∀ s : State, ∀ r ∈ should_sleep_ticks cfg s envs,
      r.ret = some true → r.state.timer_running = true := by
  induction envs with
  | nil => intro s r hr; simp [should_sleep_ticks] at hr
  | cons env envs ih =>
    intro s r hr
    have hstep := should_sleep_step cfg env s
    simp only [should_sleep_ticks, List.mem_cons] at hr
    rcases hr with rfl | hr
    · intro htrue
      cases hexp : window_expired s env
      · exact absurd htrue (hstep.2.1 hexp).1
      · exact (hstep.1 hexp).2.1
    · cases hret : (app_heartbeat_should_sleep cfg env s).ret with
      | none => simp [hret] at hr
      | some b =>
        simp only [hret] at hr
        exact ih _ r hr

/-- In a run of ticks none of which finds the window expired, no tick starts the
timer and `timer_running` keeps its value. -/
theorem should_sleep_ticks_open_no_start (cfg : Config) (envs : List ShouldSleepEnv) :
    ∀ s : State, (∀ e ∈ envs, window_expired s e = false) →
      ∀ r ∈ should_sleep_ticks cfg s envs,
        timer_starts r.events = 0 ∧ r.state.timer_running = s.timer_running := by
  induction envs with
  | nil => intro s _ r hr; simp [should_sleep_ticks] at hr
  | cons env envs ih =>
    intro s hopen r hr
    have hstep := should_sleep_step cfg env s
    have hhead := hstep.2.1 (hopen env (List.mem_cons_self _ _))
    simp only [should_sleep_ticks, List.mem_cons] at hr
    rcases hr with rfl | hr
    · exact ⟨hhead.2.2, hhead.2.1⟩
    · cases hret : (app_heartbeat_should_sleep cfg env s).ret with
      | none => simp [hret] at hr
      | some b =>
        simp only [hret] at hr
        have := ih (app_heartbeat_should_sleep cfg env s).state (fun x hx => by
          unfold window_expired
          rw [hstep.2.2.1]
          exact hopen x (List.mem_cons_of_mem _ hx)) r hr
        rw [hhead.2.1] at this
        exact this

/-- C17. Re-arming is done exactly once per live window.  In every run of ticks
that follows `app_heartbeat_set_gatt_interval_ms` directly, the tick that first
finds the window expired makes one `ri_timer_start`, on the heartbeat timer at
`heartbeat_interval_ms`, and no other tick of the run starts the timer; while no
tick has found the window expired no timer start is made and `timer_running`
stays false.  Every tick that returns true leaves `timer_running` true, so
`timer_running` is false only after ticks that found the window open.  With
`rtc + 30000 < 2^64` a tick finds the window expired exactly when its reading of
line 238 is past `rtc + 30000`. -/
theorem rearm_once_per_live_window (cfg : Config) (rtc interval_ms : Nat) (s : State) :
    (∀ (pre post : List ShouldSleepEnv) (env : ShouldSleepEnv),
      (∀ e ∈ pre, window_expired
        (app_heartbeat_set_gatt_interval_ms rtc interval_ms s).state e = false) →
      window_expired (app_heartbeat_set_gatt_interval_ms rtc interval_ms s).state env = true →
      ∀ (i : Nat) (r : Result Bool),
        (should_sleep_ticks cfg (app_heartbeat_set_gatt_interval_ms rtc interval_ms s).state
          (pre ++ env :: post))[i]? = some r →
          timer_starts r.events = (if i = pre.length then 1 else 0) ∧
          (i = pre.length →
            r.events = [Event.timer_start s.heart_timer s.heartbeat_interval_ms])) ∧
    (∀ envs : List ShouldSleepEnv,
      (∀ e ∈ envs, window_expired
        (app_heartbeat_set_gatt_interval_ms rtc interval_ms s).state e = false) →
      ∀ r ∈ should_sleep_ticks cfg
          (app_heartbeat_set_gatt_interval_ms rtc interval_ms s).state envs,
        timer_starts r.events = 0 ∧ r.state.timer_running = false) ∧
    (∀ envs : List ShouldSleepEnv,
      ∀ r ∈ should_sleep_ticks cfg
          (app_heartbeat_set_gatt_interval_ms rtc interval_ms s).state envs,
        (r.ret = some true → r.state.timer_running = true) ∧
        (r.state.timer_running = false → r.ret ≠ some true)) ∧
    (rtc + 30000 < 2 ^ 64 →
      ∀ env : ShouldSleepEnv,
        (window_expired (app_heartbeat_set_gatt_interval_ms rtc interval_ms s).state env = true
          ↔ rtc + 30000 < env.rtc_live)) := by
  refine ⟨?_, ?_, ?_, ?_⟩
  · intro pre post env hopen hexp i r hr
    exact should_sleep_ticks_rearm cfg env post pre
      (app_heartbeat_set_gatt_interval_ms rtc interval_ms s).state rfl hopen hexp i r hr
  · intro envs hopen r hr
    exact should_sleep_ticks_open_no_start cfg envs
      (app_heartbeat_set_gatt_interval_ms rtc interval_ms s).state hopen r hr
  · intro envs r hr
    have h := should_sleep_ticks_true_armed cfg envs
      (app_heartbeat_set_gatt_interval_ms rtc interval_ms s).state r hr
    refine ⟨h, fun hoff htrue => ?_⟩
    rw [h htrue] at hoff
    exact absurd hoff (by decide)
  · intro hrange env
    simp only [window_expired, app_heartbeat_set_gatt_interval_ms, u64_of_i64_of_u64,
      decide_eq_true_eq]
    omega

/-- C17, worked example: init at 1000, `set_gatt_interval (500)` at 2000 (deadline
32000), then ticks at 31000, 32001 and 32002; only the tick at 32001 starts the
timer. -/
theorem rearm_once_per_live_window_witness :
    (should_sleep_ticks example_cfg
        (app_heartbeat_set_gatt_interval_ms 2000 500
          (app_heartbeat_init example_cfg (example_init 1000) boot_state).state).state
        ([example_tick 31000] ++ example_tick 32001 :: [example_tick 32002])).map
      (fun r => timer_starts r.events) = [0, 1, 0] ∧
    timer_starts (app_heartbeat_should_sleep example_cfg (example_tick 32001)
      (app_heartbeat_should_sleep example_cfg (example_tick 31000)
        (app_heartbeat_set_gatt_interval_ms 2000 500
          (app_heartbeat_init example_cfg (example_init 1000)
            boot_state).state).state).state).events = 1 :=
  ⟨by decide,
   ((rearm_once_per_live_window example_cfg 2000 500
      (app_heartbeat_init example_cfg (example_init 1000) boot_state).state).1
      [example_tick 31000] [example_tick 32002] (example_tick 32001)
      (by decide) (by decide) 1 _ rfl).1⟩


/-! ## Facts on runs of calls -/

/-- A pipeline execution makes no timer call: the timer runs after it exactly
when it ran before. -/
theorem timer_after_heartbeat (cfg : Config) (env : HeartbeatEnv) (s : State) (running : Bool) :
    timer_after running (heartbeat cfg env s).events = running := by
  unfold heartbeat heartbeat_gatt heartbeat_finish
  simp only [error_check_events, send_adv_events, not_u32_not_u32]
  split_ifs <;> simp [timer_after]

/-- Timer tracking over two lists of driver calls, one after the other. -/
theorem timer_after_append (running : Bool) (a b : List Event) :
    timer_after running (a ++ b) = timer_after (timer_after running a) b := by
  induction a generalizing running with
  | nil => rfl
  | cons e a ih => cases e <;> simp [timer_after, ih]

/-- From non-decreasing readings `lo :: (a ++ b)`: any `next` that is `lo` or one
of `a` is at least `lo` and can head the rest `b`. -/
theorem readings_step (lo next : Nat) (a b : List Nat)
    (h : (lo :: (a ++ b)).Pairwise (fun x y => x ≤ y)) (hnext : next = lo ∨ next ∈ a) :
    lo ≤ next ∧ (next :: b).Pairwise (fun x y => x ≤ y) := by
  rw [List.pairwise_cons, List.pairwise_append] at h
  obtain ⟨hlo, _, hb, hab⟩ := h
  rcases hnext with rfl | hmem
  · exact ⟨le_refl _, List.pairwise_cons.2
      ⟨fun y hy => hlo y (List.mem_append_right _ hy), hb⟩⟩
  · exact ⟨hlo next (List.mem_append_left _ hmem), List.pairwise_cons.2
      ⟨fun y hy => hab next hmem y hy, hb⟩⟩

/-- One call keeps the exclusion of the two regimes.  If the deadline is a
non-negative `int64_t` and, whenever the timer runs, is at most the reading `lo`,
then after a call with readings from `lo` on (and an `app_heartbeat_start` only
with the deadline not above its first reading) the same holds for `lo` or one of
the readings of the call. -/
theorem step_keeps_exclusion (cfg : Config) (sys : Sys) (op : Op) (lo : Nat)
    (rest : List Nat)
    (h0 : 0 ≤ sys.state.heartbeat_gatt_live_until)
    (h1 : sys.state.heartbeat_gatt_live_until < 2 ^ 63)
    (hinv : sys.timer_on = true → sys.state.heartbeat_gatt_live_until ≤ (lo : Int))
    (hmono : (lo :: (op.readings ++ rest)).Pairwise (fun x y => x ≤ y))
    (hbound : ∀ t ∈ op.readings, t + 30000 < 2 ^ 63)
    (hstart : ∀ env : StartEnv, op = Op.start env →
      sys.state.heartbeat_gatt_live_until ≤ (env.hb.rtc_rate_limit : Int)) :
    ∃ next : Nat, (next = lo ∨ next ∈ op.readings) ∧
      0 ≤ (sys.step cfg op).state.heartbeat_gatt_live_until ∧
      (sys.step cfg op).state.heartbeat_gatt_live_until < 2 ^ 63 ∧
      ((sys.step cfg op).timer_on = true →
        (sys.step cfg op).state.heartbeat_gatt_live_until ≤ (next : Int)) := by
  cases hstop : sys.stopped with
  | true =>
    refine ⟨lo, Or.inl rfl, ?_⟩
    simp only [Sys.step, hstop, if_true]
    exact ⟨h0, h1, hinv⟩
  | false =>
    cases op with
    | set_gatt_interval rtc interval_ms =>
      have hb := hbound rtc (by simp [Op.readings])
      refine ⟨lo, Or.inl rfl, ?_⟩
      simp only [Sys.step, hstop, Bool.false_eq_true, if_false, Op.run, Result.forget, app_heartbeat_set_gatt_interval_ms,
        timer_after]
      rw [i64_of_u64_eq _ (by omega)]
      refine ⟨by omega, by omega, fun hc => ?_⟩
      simp at hc
    | should_sleep env =>
      have hu := u64_of_i64_eq sys.state.heartbeat_gatt_live_until h0 (by omega)
      have hle : lo ≤ env.rtc_live := by
        rw [List.pairwise_cons] at hmono
        exact hmono.1 _ (by simp [Op.readings])
      have hframe := heartbeat_frame cfg env.hb sys.state
      by_cases hexp : u64_of_i64 sys.state.heartbeat_gatt_live_until < env.rtc_live
      · refine ⟨env.rtc_live, Or.inr (by simp [Op.readings]), ?_⟩
        cases htr : sys.state.timer_running <;>
          simp only [Sys.step, hstop, Bool.false_eq_true, if_false, Op.run, Result.forget, app_heartbeat_should_sleep,
            if_pos hexp, htr] <;>
          simp <;>
          refine ⟨h0, h1, ?_⟩ <;>
          omega
      · refine ⟨lo, Or.inl rfl, ?_⟩
        by_cases hdue : u64_of_i64 (add_i64 sys.state.last_hb_ms
            (sys.state.heartbeat_gatt_interval_dynamic_ms : Int)) < env.rtc_due
        · simp only [Sys.step, hstop, Bool.false_eq_true, if_false, Op.run, Result.forget, app_heartbeat_should_sleep,
            if_neg hexp, if_pos hdue, timer_after_heartbeat, hframe.1]
          exact ⟨h0, h1, hinv⟩
        · simp only [Sys.step, hstop, Bool.false_eq_true, if_false, Op.run, Result.forget, app_heartbeat_should_sleep,
            if_neg hexp, if_neg hdue, timer_after]
          exact ⟨h0, h1, hinv⟩
    | start env =>
      have hs := hstart env rfl
      have hframe := heartbeat_frame cfg env.hb sys.state
      refine ⟨env.hb.rtc_rate_limit,
        Or.inr (by simp [Op.readings, HeartbeatEnv.readings]), ?_⟩
      by_cases hnull : sys.state.heart_timer = none
      · simp only [Sys.step, hstop, Bool.false_eq_true, if_false, Op.run, Result.forget, app_heartbeat_start, hnull,
          if_true, timer_after]
        exact ⟨h0, h1, fun _ => hs⟩
      · cases hret : (heartbeat cfg env.hb sys.state).ret <;>
          simp only [Sys.step, hstop, Bool.false_eq_true, if_false, Op.run, Result.forget, app_heartbeat_start,
            if_neg hnull, hret, timer_after_append, timer_after_heartbeat, hframe.1] <;>
          exact ⟨h0, h1, fun _ => hs⟩
    | stop timer_stop_status =>
      refine ⟨lo, Or.inl rfl, ?_⟩
      by_cases hnull : sys.state.heart_timer = none
      · simp only [Sys.step, hstop, Bool.false_eq_true, if_false, Op.run, Result.forget, app_heartbeat_stop, hnull,
          if_true, timer_after]
        exact ⟨h0, h1, hinv⟩
      · simp only [Sys.step, hstop, Bool.false_eq_true, if_false, Op.run, Result.forget, app_heartbeat_stop,
          if_neg hnull, timer_after]
        refine ⟨h0, h1, fun hc => ?_⟩
        simp at hc
    | pipeline env =>
      have hframe := heartbeat_frame cfg env sys.state
      refine ⟨lo, Or.inl rfl, ?_⟩
      simp only [Sys.step, hstop, Bool.false_eq_true, if_false, Op.run, timer_after_heartbeat, hframe.1]
      exact ⟨h0, h1, hinv⟩

/-- A run of calls with non-decreasing clock readings, none of them an
`app_heartbeat_start` inside a live window, keeps the exclusion: if at the outset
the deadline is at most `lo` whenever the timer runs, then at the end the
deadline is at most any reading `now` that follows the run whenever the timer
runs. -/
theorem run_ops_keeps_exclusion (cfg : Config) (now : Nat) (hnow : now + 30000 < 2 ^ 63)
    (ops : List Op) :
    ∀ (sys : Sys) (lo : Nat),
      0 ≤ sys.state.heartbeat_gatt_live_until →
      sys.state.heartbeat_gatt_live_until < 2 ^ 63 →
      (sys.timer_on = true → sys.state.heartbeat_gatt_live_until ≤ (lo : Int)) →
      (lo :: (ops_readings ops ++ [now])).Pairwise (fun x y => x ≤ y) →
      starts_outside_window cfg sys ops = true →
      ((run_ops cfg sys ops).timer_on = true →
        (run_ops cfg sys ops).state.heartbeat_gatt_live_until ≤ (now : Int)) := by
  induction ops with
  | nil =>
    intro sys lo _ _ hinv hmono _ hon
    have hlo : lo ≤ now := by
      simp only [ops_readings, List.nil_append, List.pairwise_cons] at hmono
      exact hmono.1 now (List.mem_cons_self _ _)
    have := hinv hon
    simp only [run_ops]
    omega
  | cons op ops ih =>
    intro sys lo h0 h1 hinv hmono hstart
    simp only [ops_readings, List.append_assoc] at hmono
    have hcross : ∀ t ∈ op.readings, t ≤ now := by
      intro t ht
      have h := hmono
      rw [List.pairwise_cons, List.pairwise_append] at h
      exact h.2.2.2 t ht now (by simp)
    simp only [starts_outside_window, Bool.and_eq_true] at hstart
    obtain ⟨next, hnext, h0', h1', hinv'⟩ := step_keeps_exclusion cfg sys op lo
      (ops_readings ops ++ [now]) h0 h1 hinv hmono
      (fun t ht => by have := hcross t ht; omega)
      (fun env henv => by
        subst henv
        simpa using hstart.1)
    have hrest := (readings_step lo next op.readings (ops_readings ops ++ [now]) hmono hnext).2
    simp only [run_ops]
    exact ih (sys.step cfg op) next h0' h1' hinv' hrest hstart.2

/-! ## The claims, concluded -/

/-- C16, counterexample: after a successful init at reading 1000,
`set_gatt_interval (500)` at 1010 opens a live window until 31010 and
`app_heartbeat_start` at 1020 starts the periodic timer; at reading 1020 the
timer runs while the live window is open. -/
theorem timer_runs_in_live_window_counterexample :
    (app_heartbeat_init example_cfg (example_init 1000) boot_state).ret = some RD_SUCCESS ∧
    ((example_init 1000).readings ++ ops_readings example_ops_start_in_window
      ++ [1020]).Pairwise (fun x y => x ≤ y) ∧
    (run_ops example_cfg (after_init example_cfg (example_init 1000) boot_state)
      example_ops_start_in_window).timer_on = true ∧
    ((1020 : Int) < (run_ops example_cfg
      (after_init example_cfg (example_init 1000) boot_state)
      example_ops_start_in_window).state.heartbeat_gatt_live_until) := by
  decide

/-- C16, amended. The two cadence regimes are mutually exclusive as long as
`app_heartbeat_start` is not called inside a live window.  For every state
reached from `app_heartbeat_init` through any sequence of `set_gatt_interval`,
`should_sleep`, `stop` and pipeline executions, and of `start` calls made when
the deadline is not above the clock reading, all with non-decreasing clock
readings, and every later clock reading `now` (with `now + 30000` within
`int64_t`): the periodic timer, as tracked on the `ri_timer_start` and
`ri_timer_stop` calls, is not running while the live window is open
(`now < heartbeat_gatt_live_until`). -/
theorem timer_off_while_live_window (cfg : Config) (ienv : InitEnv) (s : State)
    (ops : List Op) (now : Nat)
    (hmono : (ienv.readings ++ ops_readings ops ++ [now]).Pairwise (fun x y => x ≤ y))
    (hnow : now + 30000 < 2 ^ 63)
    (hstart : starts_outside_window cfg (after_init cfg ienv s) ops = true) :
    ¬ ((run_ops cfg (after_init cfg ienv s) ops).timer_on = true ∧
      (now : Int) < (run_ops cfg (after_init cfg ienv s) ops).state.heartbeat_gatt_live_until) := by
  have hm := hmono
  simp only [InitEnv.readings, List.append_assoc, List.cons_append, List.nil_append,
    List.pairwise_cons] at hm
  obtain ⟨_, _, hlo, hrest⟩ := hm
  have hle : ienv.rtc_live_until ≤ now := hlo now (by simp)
  have hlive : (after_init cfg ienv s).state.heartbeat_gatt_live_until
      = (ienv.rtc_live_until : Int) := by
    unfold after_init app_heartbeat_init
    dsimp only
    split_ifs <;> exact i64_of_u64_eq _ (by omega)
  have hkey := run_ops_keeps_exclusion cfg now hnow ops (after_init cfg ienv s)
    ienv.rtc_live_until (by rw [hlive]; omega) (by rw [hlive]; omega)
    (fun _ => by rw [hlive]) (List.pairwise_cons.2 ⟨hlo, hrest⟩) hstart
  rintro ⟨hon, hlt⟩
  have := hkey hon
  omega

/-- C16 amended, worked example: the run `example_ops` after a successful init at
1000; at reading 31020 the timer runs and the window (deadline 31010) is over. -/
theorem timer_off_while_live_window_witness :
    (run_ops example_cfg (after_init example_cfg (example_init 1000) boot_state)
      example_ops).timer_on = true ∧
    ¬ ((run_ops example_cfg (after_init example_cfg (example_init 1000) boot_state)
        example_ops).timer_on = true ∧
      ((31020 : Nat) : Int) < (run_ops example_cfg
        (after_init example_cfg (example_init 1000) boot_state)
        example_ops).state.heartbeat_gatt_live_until) :=
  ⟨by decide,
   timer_off_while_live_window example_cfg (example_init 1000) boot_state example_ops 31020
    (by decide) (by decide) (by decide)⟩


end AppHeartbeat
